import Mathlib

/-!
Verification development for the km-apiserver kernel-lifecycle orchestrator.

The Python sources are shallowly embedded:
* Python/JSON values become `JValue`; Python dicts become ordered
  association lists (`PyDict`) with insert-or-overwrite semantics.
* The pydantic models `KernelConnectionInfoModel`, `KernelPayload`,
  `AliasKernelPayload`, `KernelModel` and `KernelResponse` become Lean
  structures; their validators and alias-driven dumps become explicit
  functions on `JValue` dictionaries.
* `uuid.uuid4()` default factories are modelled by passing the fresh
  identifiers in explicitly (`FreshIds`).
* Exceptions become `Except`: raw Python exceptions (`KeyError`,
  `TypeError`, pydantic `ValidationError`, ...) are `PyErr`; the
  repository's `BaseKernelError` hierarchy (excs.py) is `KErr`, with the
  subclass relations reflected by the `isCreationErr`/`isRetrieveErr`
  predicates that drive `except`-clause matching.
-/

/-- A JSON-like Python value.  JSON numbers are modelled as integers: the
documents this service builds and parses carry only ints, strings, bools,
arrays, objects and null. -/
inductive JValue where
  | null : JValue
  | bool : Bool → JValue
  | int : Int → JValue
  | str : String → JValue
  | arr : List JValue → JValue
  | obj : List (String × JValue) → JValue

mutual

/-- Structural equality of Python values (the `==` of the embedded code). -/
def JValue.beq : JValue → JValue → Bool
  | .null, .null => true
  | .bool a, .bool c => a == c
  | .int a, .int c => a == c
  | .str a, .str c => a == c
  | .arr xs, .arr ys => JValue.beqArr xs ys
  | .obj xs, .obj ys => JValue.beqObj xs ys
  | _, _ => false

/-- Elementwise equality of Python lists. -/
def JValue.beqArr : List JValue → List JValue → Bool
  | [], [] => true
  | x :: xs, y :: ys => JValue.beq x y && JValue.beqArr xs ys
  | _, _ => false

/-- Entrywise equality of Python dict item lists. -/
def JValue.beqObj : List (String × JValue) → List (String × JValue) → Bool
  | [], [] => true
  | (k, x) :: xs, (l, y) :: ys => k == l && JValue.beq x y && JValue.beqObj xs ys
  | _, _ => false

end

instance : BEq JValue := ⟨JValue.beq⟩

/-- A Python dict with string keys: an ordered association list, newly
inserted keys appended at the end, existing keys overwritten in place. -/
abbrev PyDict := List (String × JValue)

/-- `k in d` for a Python dict. -/
def dHas : PyDict → String → Bool
  | [], _ => false
  | kv :: d, k => kv.1 == k || dHas d k

/-- `d.get(k)` for a Python dict: `none` when the key is absent. -/
def dGetOpt : PyDict → String → Option JValue
  | [], _ => none
  | kv :: d, k => if kv.1 == k then some kv.2 else dGetOpt d k

/-- `d[k] = v` for a Python dict: overwrite in place (dicts never hold a
key twice), else append. -/
def dSet : PyDict → String → JValue → PyDict
  | [], k, v => [(k, v)]
  | kv :: d, k, v => if kv.1 == k then (k, v) :: d else kv :: dSet d k v

/-- Raw Python exceptions that the embedded code can raise. -/
inductive PyErr where
  | keyError : String → PyErr
  | typeError : PyErr
  | indexError : PyErr
  | attributeError : PyErr
  | valueError : PyErr
  | validationError : PyErr
deriving DecidableEq, Repr

/-- `k in v` for an arbitrary Python value: dict key membership, substring
test on strings, element membership on lists, `TypeError` otherwise. -/
def pyContains (v : JValue) (k : String) : Except PyErr Bool :=
  match v with
  | .obj kvs => .ok (kvs.any (fun kv => kv.1 == k))
  | .str s => .ok (((s.splitOn k).length) > 1)
  | .arr xs => .ok (xs.any (fun x => x == .str k))
  | _ => .error .typeError

/-- `v[k]` for a string subscript: dict lookup raising `KeyError` when the
key is absent, `TypeError` on any non-dict value. -/
def pyGet (v : JValue) (k : String) : Except PyErr JValue :=
  match v with
  | .obj kvs =>
    match dGetOpt kvs k with
    | some x => .ok x
    | none => .error (.keyError k)
  | _ => .error .typeError

/-- `v[i]` for an integer subscript: list indexing raising `IndexError`
out of range, `TypeError` on non-sequences. -/
def pyIdx (v : JValue) (i : Nat) : Except PyErr JValue :=
  match v with
  | .arr xs =>
    match xs.get? i with
    | some x => .ok x
    | none => .error .indexError
  | _ => .error .typeError

/-- `v.get(k, dflt)`: dict method lookup with default; on a non-dict value
the attribute access itself fails (`AttributeError`). -/
def pyGetDefault (v : JValue) (k : String) (dflt : JValue) : Except PyErr JValue :=
  match v with
  | .obj kvs =>
    match dGetOpt kvs k with
    | some x => .ok x
    | none => .ok dflt
  | _ => .error .attributeError

/-- The `BaseKernelError` taxonomy of `excs.py`, one constructor per leaf
class. -/
inductive KErr where
  | kernelCreation : KErr
  | kernelWaitReadyTimeout : KErr
  | kernelRetrieve : KErr
  | kernelDelete : KErr
  | kernelNotFound : KErr
  | kernelExists : KErr
  | kernelForbidden : KErr
  | kernelResourceQuotaExceeded : KErr
deriving DecidableEq, Repr

/-- `isinstance(e, KernelCreationError)`: `KernelExistsError`,
`KernelForbiddenError` and `KernelResourceQuotaExceededError` are
subclasses of `KernelCreationError` in excs.py. -/
def KErr.isCreationErr : KErr → Bool
  | .kernelCreation => true
  | .kernelExists => true
  | .kernelForbidden => true
  | .kernelResourceQuotaExceeded => true
  | _ => false

/-- `isinstance(e, KernelRetrieveError)`: `KernelNotFoundError` is a
subclass of `KernelRetrieveError` in excs.py. -/
def KErr.isRetrieveErr : KErr → Bool
  | .kernelRetrieve => true
  | .kernelNotFound => true
  | _ => false

/-- `isinstance(e, KernelResourceQuotaExceededError)`. -/
def KErr.isQuotaErr : KErr → Bool
  | .kernelResourceQuotaExceeded => true
  | _ => false

/-- `isinstance(e, KernelExistsError)`. -/
def KErr.isExistsErr : KErr → Bool
  | .kernelExists => true
  | _ => false

/-- `isinstance(e, KernelDeleteError)`. -/
def KErr.isDeleteErr : KErr → Bool
  | .kernelDelete => true
  | _ => false

/-- `isinstance(e, KernelWaitReadyTimeoutError)`. -/
def KErr.isTimeoutErr : KErr → Bool
  | .kernelWaitReadyTimeout => true
  | _ => false

/-- `s.startswith(p)` over the underlying character lists (reduces inside
the kernel, unlike `String.startsWith`). -/
def strStartsWith (s p : String) : Bool :=
  p.data.isPrefixOf s.data

/-- Decimal parsing of a nonempty digit string, `none` otherwise. -/
def strToNatOpt (s : String) : Option Nat :=
  if !s.data.isEmpty && s.data.all Char.isDigit then
    some (s.data.foldl (fun acc c => acc * 10 + (c.toNat - 48)) 0)
  else none

/-- Python `int(...)` on a string: optional sign, then digits. -/
def strToIntOpt (s : String) : Option Int :=
  if strStartsWith s "-" then
    (strToNatOpt (String.mk (s.data.drop 1))).map (fun n => -(n : Int))
  else (strToNatOpt s).map (fun n => (n : Int))

/-! ## A small JSON decoder, standing in for Python `json.loads`.

Only the fragment the service exchanges is decoded: objects, arrays,
strings without escape sequences, integers, booleans and null.  Inputs
outside this fragment (floats, escapes) are rejected with `none`. -/

/-- Drop leading JSON whitespace. -/
def jSkipWs : List Char → List Char
  | c :: cs =>
    if c == ' ' || c == '\n' || c == '\t' || c == '\r' then jSkipWs cs else c :: cs
  | [] => []

/-- Decode the remainder of a JSON string after the opening quote; no
escape sequences. -/
def jParseStr : List Char → Option (String × List Char)
  | [] => none
  | c :: cs =>
    if c == '"' then some ("", cs)
    else if c == '\\' then none
    else (jParseStr cs).map (fun p => (String.mk (c :: p.1.data), p.2))

mutual

/-- Decode one JSON value, fuel-bounded. -/
def jParseVal : Nat → List Char → Option (JValue × List Char)
  | 0, _ => none
  | fuel + 1, cs =>
    match jSkipWs cs with
    | [] => none
    | c :: rest =>
      if c == '"' then (jParseStr rest).map (fun p => (.str p.1, p.2))
      else if c == '[' then
        match jSkipWs rest with
        | ']' :: rest2 => some (.arr [], rest2)
        | rest2 => (jParseArrItems fuel rest2).map (fun p => (.arr p.1, p.2))
      else if c == '\x7b' then
        match jSkipWs rest with
        | '\x7d' :: rest2 => some (.obj [], rest2)
        | rest2 => (jParseObjItems fuel rest2).map (fun p => (.obj p.1, p.2))
      else if c == 't' then
        match rest with
        | 'r' :: 'u' :: 'e' :: rest2 => some (.bool true, rest2)
        | _ => none
      else if c == 'f' then
        match rest with
        | 'a' :: 'l' :: 's' :: 'e' :: rest2 => some (.bool false, rest2)
        | _ => none
      else if c == 'n' then
        match rest with
        | 'u' :: 'l' :: 'l' :: rest2 => some (.null, rest2)
        | _ => none
      else
        let (neg, ds) := if c == '-' then (true, rest) else (false, c :: rest)
        let digits := ds.takeWhile Char.isDigit
        let rest2 := ds.dropWhile Char.isDigit
        if digits.isEmpty then none
        else
          match rest2 with
          | '.' :: _ => none
          | 'e' :: _ => none
          | 'E' :: _ => none
          | _ =>
            match strToNatOpt (String.mk digits) with
            | some n => some (.int (if neg then -(n : Int) else (n : Int)), rest2)
            | none => none

/-- Decode comma-separated JSON array items up to the closing bracket. -/
def jParseArrItems : Nat → List Char → Option (List JValue × List Char)
  | 0, _ => none
  | fuel + 1, cs =>
    match jParseVal fuel cs with
    | none => none
    | some (v, rest) =>
      match jSkipWs rest with
      | ',' :: rest2 =>
        (jParseArrItems fuel rest2).map (fun p => (v :: p.1, p.2))
      | ']' :: rest2 => some ([v], rest2)
      | _ => none

/-- Decode comma-separated JSON object items up to the closing brace. -/
def jParseObjItems : Nat → List Char → Option (List (String × JValue) × List Char)
  | 0, _ => none
  | fuel + 1, cs =>
    match jSkipWs cs with
    | '"' :: rest =>
      match jParseStr rest with
      | none => none
      | some (k, rest2) =>
        match jSkipWs rest2 with
        | ':' :: rest3 =>
          match jParseVal fuel rest3 with
          | none => none
          | some (v, rest4) =>
            match jSkipWs rest4 with
            | ',' :: rest5 =>
              (jParseObjItems fuel rest5).map (fun p => ((k, v) :: p.1, p.2))
            | '\x7d' :: rest5 => some ([(k, v)], rest5)
            | _ => none
        | _ => none
    | _ => none

end

/-- `json.loads` on the decoded fragment: `none` models a decode error. -/
def jsonLoads (s : String) : Option JValue :=
  match jParseVal (s.length + 1) s.data with
  | some (v, rest) => if (jSkipWs rest).isEmpty then some v else none
  | none => none

/-! ## Constants of the CR contract. -/

/-- Modelled from the spec: `constants.py` is not under src/.  The CR
group is `jupyter.org` (spec section 6). -/
def KERNEL_GROUP : String := "jupyter.org"

/-- Modelled from the spec: the CR version `v1`. -/
def KERNEL_VERSION : String := "v1"

/-- Modelled from the spec: the stable-handle label `<group>/kernel-id`. -/
def KERNEL_ID_LABEL : String := KERNEL_GROUP ++ "/kernel-id"

/-- Modelled from the spec: the `<group>/kernelmanager-name` label. -/
def KERNEL_MANAGER_NAME_LABEL : String := KERNEL_GROUP ++ "/kernelmanager-name"

/-- Modelled from the spec: the `<group>/kernel-spec-name` label. -/
def KERNEL_SPEC_NAME_LABEL : String := KERNEL_GROUP ++ "/kernel-spec-name"

/-- Modelled from the spec: the `<group>/kernel-last-activity-time`
annotation key. -/
def KERNEL_LAST_ACTIVITY_LABEL : String := KERNEL_GROUP ++ "/kernel-last-activity-time"

/-! ## The pydantic data model (km_apiserver/jupyter_kernel_client/schema.py
and km_apiserver/handlers/schema.py). -/

/-- `KernelSpecName`: currently the single member `python`. -/
inductive KernelSpecName where
  | python : KernelSpecName
deriving DecidableEq, Repr

/-- The `.value` of the str-enum member. -/
def KernelSpecName.val : KernelSpecName → String
  | .python => "python"

/-- The enum member as it appears in a dumped payload. -/
def kernelSpecNameJ (s : KernelSpecName) : JValue := .str s.val

/-- `KernelConnectionInfoModel`.  The `uuid.uuid4()` default factories for
`kernel_id` and `key` are modelled by explicit construction arguments. -/
structure KernelConnectionInfoModel where
  ip : String := "0.0.0.0"
  shell_port : Int := 52318
  iopub_port : Int := 52317
  stdin_port : Int := 52319
  control_port : Int := 52321
  hb_port : Int := 52320
  kernel_id : String
  key : String
  transport : String := "tcp"
  signature_scheme : String := "hmac-sha256"
  kernel_name : String := ""
deriving DecidableEq, Repr

/-- `KernelPayload`: the creation request model (no aliases). -/
structure KernelPayload where
  kernel_id : String
  kernel_spec_name : KernelSpecName := .python
  kernel_working_dir : String := "/mnt/data"
  kernel_namespace : String := "default"
  kernel_volumes : List PyDict := []
  kernel_volume_mounts : List PyDict := []
  kernel_idle_timeout : Int := 3600
  kernel_connection_info : KernelConnectionInfoModel
  kernel_image : String := "zjuici/tablegpt-kernel:0.1.1"

/-- `AliasKernelPayload`: the same fields, validated under UPPER_SNAKE
aliases, plus `kernel_language` and `kernel_username`. -/
structure AliasKernelPayload extends KernelPayload where
  kernel_language : String := "python"
  kernel_username : String := "default"

/-- `KernelModel`: the read-side view, extending the payload. -/
structure KernelModel extends KernelPayload where
  kernel_name : String := ""
  kernel_last_activity_time : Option String := none
  ready : Bool := false

/-- The fresh UUID strings that the pydantic `default_factory` calls of
one validation pass would mint. -/
structure FreshIds where
  payloadKernelId : String
  connKernelId : String
  connKey : String

/-- The connection-info model built by its default factory. -/
def connDefault (f : FreshIds) : KernelConnectionInfoModel :=
  { kernel_id := f.connKernelId, key := f.connKey }

/-- `int(value)` as used by the `kernel_idle_timeout` before-validator: a
`ValueError` (non-numeric string) becomes a pydantic `ValidationError`, a
`TypeError` (None, list, dict) propagates uncaught. -/
def intCoerce (v : JValue) : Except PyErr Int :=
  match v with
  | .int n => .ok n
  | .bool b => .ok (if b then 1 else 0)
  | .str s =>
    match strToIntOpt s with
    | some n => .ok n
    | none => .error .validationError
  | _ => .error .typeError

/-- A pydantic `str` field with a default: strings pass, anything else is
a `ValidationError` (v2 does not coerce to str). -/
def pyStrField (v : Option JValue) (dflt : String) : Except PyErr String :=
  match v with
  | none => .ok dflt
  | some (.str s) => .ok s
  | some _ => .error .validationError

/-- A pydantic `int` field with a default: ints pass, numeric strings are
coerced (lax mode), anything else is a `ValidationError`. -/
def pyIntField (v : Option JValue) (dflt : Int) : Except PyErr Int :=
  match v with
  | none => .ok dflt
  | some (.int n) => .ok n
  | some (.str s) =>
    match strToIntOpt s with
    | some n => .ok n
    | none => .error .validationError
  | some _ => .error .validationError

/-- The `KernelSpecName` field: only the member value `python` validates. -/
def specNameValidate (v : Option JValue) : Except PyErr KernelSpecName :=
  match v with
  | none => .ok .python
  | some (.str s) => if s == "python" then .ok .python else .error .validationError
  | some _ => .error .validationError

/-- The `validate_json_str` before-validator composed with the
`list[dict[str, Any]]` field validation for `kernel_volumes` and
`kernel_volume_mounts`: a string is JSON-decoded (`ValueError` on decode
failure becomes a `ValidationError`; a decoded non-list raises an uncaught
`TypeError`), then every element must be a dict. -/
def volumesValidate (v : JValue) : Except PyErr (List PyDict) :=
  let decoded : Except PyErr JValue :=
    match v with
    | .str s =>
      match jsonLoads s with
      | none => .error .validationError
      | some (.arr xs) => .ok (.arr xs)
      | some _ => .error .typeError
    | w => .ok w
  match decoded with
  | .error e => .error e
  | .ok (.arr xs) =>
    xs.mapM (fun x =>
      match x with
      | .obj kvs => Except.ok kvs
      | _ => Except.error PyErr.validationError)
  | .ok _ => .error .validationError

/-- `KernelConnectionInfoModel(**kvs)`: field extraction by alias with lax
coercion; extra keys are ignored. -/
def connInfoValidate (freshKid freshKey : String) (kvs : PyDict) :
    Except PyErr KernelConnectionInfoModel := do
  let ip ← pyStrField (dGetOpt kvs "ip") "0.0.0.0"
  let shell ← pyIntField (dGetOpt kvs "shellPort") 52318
  let iopub ← pyIntField (dGetOpt kvs "iopubPort") 52317
  let stdin ← pyIntField (dGetOpt kvs "stdinPort") 52319
  let control ← pyIntField (dGetOpt kvs "controlPort") 52321
  let hb ← pyIntField (dGetOpt kvs "hbPort") 52320
  let kid ← pyStrField (dGetOpt kvs "kernelId") freshKid
  let key ← pyStrField (dGetOpt kvs "key") freshKey
  let transport ← pyStrField (dGetOpt kvs "transport") "tcp"
  let scheme ← pyStrField (dGetOpt kvs "signatureScheme") "hmac-sha256"
  let kname ← pyStrField (dGetOpt kvs "kernelName") ""
  pure { ip := ip, shell_port := shell, iopub_port := iopub, stdin_port := stdin,
         control_port := control, hb_port := hb, kernel_id := kid, key := key,
         transport := transport, signature_scheme := scheme, kernel_name := kname }

/-- `model_dump(by_alias=True)` of `KernelConnectionInfoModel`: camelCase
keys in field order. -/
def connInfoDump (c : KernelConnectionInfoModel) : PyDict :=
  [("ip", .str c.ip), ("shellPort", .int c.shell_port), ("iopubPort", .int c.iopub_port),
   ("stdinPort", .int c.stdin_port), ("controlPort", .int c.control_port),
   ("hbPort", .int c.hb_port), ("kernelId", .str c.kernel_id), ("key", .str c.key),
   ("transport", .str c.transport), ("signatureScheme", .str c.signature_scheme),
   ("kernelName", .str c.kernel_name)]

/-- `AliasKernelPayload.model_validate(vals)`: field extraction under the
UPPER_SNAKE aliases with the field validators; extra keys are ignored. -/
def aliasValidate (f : FreshIds) (vals : PyDict) : Except PyErr AliasKernelPayload := do
  let kid ← pyStrField (dGetOpt vals "KERNEL_ID") f.payloadKernelId
  let spec ← specNameValidate (dGetOpt vals "KERNEL_SPEC_NAME")
  let wdir ← pyStrField (dGetOpt vals "KERNEL_WORKING_DIR") "/mnt/data"
  let ns ← pyStrField (dGetOpt vals "KERNEL_NAMESPACE") "default"
  let vols ← match dGetOpt vals "KERNEL_VOLUMES" with
    | none => pure []
    | some v => volumesValidate v
  let mounts ← match dGetOpt vals "KERNEL_VOLUME_MOUNTS" with
    | none => pure []
    | some v => volumesValidate v
  let idle ← match dGetOpt vals "KERNEL_IDLE_TIMEOUT" with
    | none => pure 3600
    | some v => intCoerce v
  let conn ← match dGetOpt vals "kernel_connection_info" with
    | none => pure (connDefault f)
    | some (.obj kvs) => connInfoValidate f.connKernelId f.connKey kvs
    | some _ => Except.error PyErr.validationError
  let img ← pyStrField (dGetOpt vals "KERNEL_IMAGE") "zjuici/tablegpt-kernel:0.1.1"
  let lang ← pyStrField (dGetOpt vals "KERNEL_LANGUAGE") "python"
  let user ← pyStrField (dGetOpt vals "KERNEL_USERNAME") "default"
  pure { kernel_id := kid, kernel_spec_name := spec, kernel_working_dir := wdir,
         kernel_namespace := ns, kernel_volumes := vols, kernel_volume_mounts := mounts,
         kernel_idle_timeout := idle, kernel_connection_info := conn, kernel_image := img,
         kernel_language := lang, kernel_username := user }

/-- `model_dump(by_alias=True)` of a plain `KernelPayload`: no aliases, so
snake_case keys in field order. -/
def payloadDump (p : KernelPayload) : PyDict :=
  [("kernel_id", .str p.kernel_id),
   ("kernel_spec_name", kernelSpecNameJ p.kernel_spec_name),
   ("kernel_working_dir", .str p.kernel_working_dir),
   ("kernel_namespace", .str p.kernel_namespace),
   ("kernel_volumes", .arr (p.kernel_volumes.map .obj)),
   ("kernel_volume_mounts", .arr (p.kernel_volume_mounts.map .obj)),
   ("kernel_idle_timeout", .int p.kernel_idle_timeout),
   ("kernel_connection_info", .obj (connInfoDump p.kernel_connection_info)),
   ("kernel_image", .str p.kernel_image)]

/-- `model_dump(by_alias=True)` of an `AliasKernelPayload`: UPPER_SNAKE
alias keys (the unaliased `kernel_connection_info` keeps its name), the
redeclared fields in the parent's positions, the two new fields last. -/
def aliasDump (a : AliasKernelPayload) : PyDict :=
  [("KERNEL_ID", .str a.kernel_id),
   ("KERNEL_SPEC_NAME", kernelSpecNameJ a.kernel_spec_name),
   ("KERNEL_WORKING_DIR", .str a.kernel_working_dir),
   ("KERNEL_NAMESPACE", .str a.kernel_namespace),
   ("KERNEL_VOLUMES", .arr (a.kernel_volumes.map .obj)),
   ("KERNEL_VOLUME_MOUNTS", .arr (a.kernel_volume_mounts.map .obj)),
   ("KERNEL_IDLE_TIMEOUT", .int a.kernel_idle_timeout),
   ("kernel_connection_info", .obj (connInfoDump a.kernel_connection_info)),
   ("KERNEL_IMAGE", .str a.kernel_image),
   ("KERNEL_LANGUAGE", .str a.kernel_language),
   ("KERNEL_USERNAME", .str a.kernel_username)]

/-! ## Inbound mapping: `KernelModel.model_validate` over a CR dict
(km_apiserver/jupyter_kernel_client/schema.py, lines 110-171).

The Python code mutates the caller's dict in place and only then hands it
to the pydantic field machinery; an exception part-way leaves the dict
partially mutated.  Each `sXxx` function below is one mutation step; an
error result carries the dict as mutated so far. -/

/-- `d[k]` on the top-level document dict. -/
def dGet (d : PyDict) (k : String) : Except PyErr JValue :=
  match dGetOpt d k with
  | some v => .ok v
  | none => .error (.keyError k)

/-- One step outcome: the mutated dict, or the raised exception together
with the dict state at the raise. -/
abbrev StepResult := Except (PyErr × PyDict) PyDict

/-- Sequencing of mutation steps. -/
def stepBind (r : StepResult) (f : PyDict → StepResult) : StepResult :=
  match r with
  | .ok d => f d
  | .error e => .error e

/-- `if "metadata" in obj and "name" in obj["metadata"]:
obj["kernel_name"] = obj["metadata"]["name"]`. -/
def sKernelName (d : PyDict) : StepResult :=
  match dGetOpt d "metadata" with
  | none => .ok d
  | some mv =>
    match pyContains mv "name" with
    | .error e => .error (e, d)
    | .ok false => .ok d
    | .ok true =>
      match pyGet mv "name" with
      | .error e => .error (e, d)
      | .ok v => .ok (dSet d "kernel_name" v)

/-- `if "metadata" in obj and "namespace" in obj["metadata"]:
obj["kernel_namespace"] = obj["metadata"]["namespace"]`. -/
def sKernelNamespace (d : PyDict) : StepResult :=
  match dGetOpt d "metadata" with
  | none => .ok d
  | some mv =>
    match pyContains mv "namespace" with
    | .error e => .error (e, d)
    | .ok false => .ok d
    | .ok true =>
      match pyGet mv "namespace" with
      | .error e => .error (e, d)
      | .ok v => .ok (dSet d "kernel_namespace" v)

/-- `if "status" in obj and "phase" in obj["status"] and
obj["status"]["phase"] == "Running": obj["ready"] = True`. -/
def sReady (d : PyDict) : StepResult :=
  match dGetOpt d "status" with
  | none => .ok d
  | some sv =>
    match pyContains sv "phase" with
    | .error e => .error (e, d)
    | .ok false => .ok d
    | .ok true =>
      match pyGet sv "phase" with
      | .error e => .error (e, d)
      | .ok v => if v == JValue.str "Running" then .ok (dSet d "ready" (.bool true)) else .ok d

/-- `obj["kernel_id"] = obj["metadata"]["labels"][KERNEL_ID]` — the step
that raises `KeyError` when the kernel-id label is missing. -/
def sKernelId (d : PyDict) : StepResult :=
  match (do
      let m ← dGet d "metadata"
      let l ← pyGet m "labels"
      pyGet l KERNEL_ID_LABEL : Except PyErr JValue) with
  | .error e => .error (e, d)
  | .ok v => .ok (dSet d "kernel_id" v)

/-- `conn_info = KernelConnectionInfoModel(**obj["spec"]["kernelConnectionConfig"])
.model_dump(by_alias=True)`; then `ip` is overridden from `status.ip` when
present, and the dict is stored under `kernel_connection_info`. -/
def sConnInfo (f : FreshIds) (d : PyDict) : StepResult :=
  match (do
      let sp ← dGet d "spec"
      let cfg ← pyGet sp "kernelConnectionConfig"
      let kvs ← (match cfg with
        | .obj kvs => Except.ok kvs
        | _ => Except.error PyErr.typeError)
      let ci ← connInfoValidate f.connKernelId f.connKey kvs
      let dumped := connInfoDump ci
      let st := (dGetOpt d "status").getD (.obj [])
      let hasIp ← pyContains st "ip"
      if hasIp then do
        let stv ← dGet d "status"
        let ipv ← pyGet stv "ip"
        Except.ok (dSet dumped "ip" ipv)
      else Except.ok dumped : Except PyErr PyDict) with
  | .error e => .error (e, d)
  | .ok dumped => .ok (dSet d "kernel_connection_info" (.obj dumped))

/-- `obj["spec"]["template"]["spec"]["containers"][0][k]`. -/
def specContainer0 (d : PyDict) (k : String) : Except PyErr JValue := do
  let sp ← dGet d "spec"
  let tpl ← pyGet sp "template"
  let tsp ← pyGet tpl "spec"
  let cs ← pyGet tsp "containers"
  let c0 ← pyIdx cs 0
  pyGet c0 k

/-- `obj["kernel_envs"] = ...containers[0]["env"]`. -/
def sEnvs (d : PyDict) : StepResult :=
  match specContainer0 d "env" with
  | .error e => .error (e, d)
  | .ok v => .ok (dSet d "kernel_envs" v)

/-- `obj["kernel_volumes"] = obj["spec"]["template"]["spec"]["volumes"]`. -/
def sVolumes (d : PyDict) : StepResult :=
  match (do
      let sp ← dGet d "spec"
      let tpl ← pyGet sp "template"
      let tsp ← pyGet tpl "spec"
      pyGet tsp "volumes" : Except PyErr JValue) with
  | .error e => .error (e, d)
  | .ok v => .ok (dSet d "kernel_volumes" v)

/-- `obj["kernel_volume_mounts"] = ...containers[0]["volumeMounts"]`. -/
def sMounts (d : PyDict) : StepResult :=
  match specContainer0 d "volumeMounts" with
  | .error e => .error (e, d)
  | .ok v => .ok (dSet d "kernel_volume_mounts" v)

/-- `obj["kernel_image"] = ...containers[0]["image"]`. -/
def sImage (d : PyDict) : StepResult :=
  match specContainer0 d "image" with
  | .error e => .error (e, d)
  | .ok v => .ok (dSet d "kernel_image" v)

/-- `obj["kernel_idle_timeout"] = obj["spec"]["idleTimeoutSeconds"]`. -/
def sIdle (d : PyDict) : StepResult :=
  match (do
      let sp ← dGet d "spec"
      pyGet sp "idleTimeoutSeconds" : Except PyErr JValue) with
  | .error e => .error (e, d)
  | .ok v => .ok (dSet d "kernel_idle_timeout" v)

/-- `obj["kernel_working_dir"] = ...containers[0]["workingDir"]`. -/
def sWorkingDir (d : PyDict) : StepResult :=
  match specContainer0 d "workingDir" with
  | .error e => .error (e, d)
  | .ok v => .ok (dSet d "kernel_working_dir" v)

/-- `datetime.strptime(s + "Z", "%Y-%m-%d %H:%M:%S.%f%z")` composed with
`.replace(tzinfo=utc).isoformat()`, for canonical zero-padded annotation
strings; other shapes raise `ValueError`.  `isoformat` omits the
fractional part when the microsecond is zero. -/
def strptimeLastActivity (s : String) : Except PyErr String :=
  match s.splitOn " " with
  | [d, t] =>
    match d.splitOn "-", t.splitOn ":" with
    | [y, mo, da], [h, mi, rest] =>
      match rest.splitOn "." with
      | [sec, frac] =>
        if y.length == 4 && mo.length == 2 && da.length == 2 &&
           h.length == 2 && mi.length == 2 && sec.length == 2 &&
           1 ≤ frac.length && frac.length ≤ 6 &&
           (y ++ mo ++ da ++ h ++ mi ++ sec ++ frac).data.all Char.isDigit &&
           1 ≤ (strToNatOpt mo).getD 0 && (strToNatOpt mo).getD 0 ≤ 12 &&
           1 ≤ (strToNatOpt da).getD 0 && (strToNatOpt da).getD 0 ≤ 31 &&
           (strToNatOpt h).getD 0 < 24 && (strToNatOpt mi).getD 0 < 60 &&
           (strToNatOpt sec).getD 0 < 62 then
          let micro := (frac.data ++ List.replicate (6 - frac.length) '0').take 6
          let fracPart := if micro.all (fun c => c == '0') then "" else "." ++ String.mk micro
          .ok (d ++ "T" ++ h ++ ":" ++ mi ++ ":" ++ sec ++ fracPart ++ "+00:00")
        else .error .valueError
      | _ => .error .valueError
    | _, _ => .error .valueError
  | _ => .error .valueError

/-- The `kernel_last_activity_time` step: annotation when present (parsed
and re-rendered), else `creationTimestamp` (default `None`). -/
def sLastActivity (d : PyDict) : StepResult :=
  match (do
      let m ← dGet d "metadata"
      let anns ← pyGetDefault m "annotations" (.obj [])
      let hasKey ← pyContains anns KERNEL_LAST_ACTIVITY_LABEL
      if hasKey then do
        let av ← pyGet anns KERNEL_LAST_ACTIVITY_LABEL
        let s ← (match av with
          | .str s => Except.ok s
          | _ => Except.error PyErr.typeError)
        let iso ← strptimeLastActivity s
        Except.ok (JValue.str iso)
      else do
        let m2 ← dGet d "metadata"
        pyGetDefault m2 "creationTimestamp" JValue.null : Except PyErr JValue) with
  | .error e => .error (e, d)
  | .ok v => .ok (dSet d "kernel_last_activity_time" v)

/-- The mutation steps from `kernel_id` extraction onwards. -/
def mvalidateTail (f : FreshIds) (d3 : PyDict) : StepResult :=
  stepBind (sKernelId d3) (fun d4 =>
  stepBind (sConnInfo f d4) (fun d5 =>
  stepBind (sEnvs d5) (fun d6 =>
  stepBind (sVolumes d6) (fun d7 =>
  stepBind (sMounts d7) (fun d8 =>
  stepBind (sImage d8) (fun d9 =>
  stepBind (sIdle d9) (fun d10 =>
  stepBind (sWorkingDir d10) (fun d11 =>
  sLastActivity d11))))))))

/-- The full in-place mutation phase of `KernelModel.model_validate`. -/
def mvalidateSteps (f : FreshIds) (d : PyDict) : StepResult :=
  stepBind (sKernelName d) (fun d1 =>
  stepBind (sKernelNamespace d1) (fun d2 =>
  stepBind (sReady d2) (fun d3 =>
  mvalidateTail f d3)))

/-- The plain `list[dict[str, Any]]` field of `KernelPayload` (no JSON
string before-validator on this class). -/
def volumesField (v : Option JValue) : Except PyErr (List PyDict) :=
  match v with
  | none => .ok []
  | some (.arr xs) =>
    xs.mapM (fun x =>
      match x with
      | .obj kvs => Except.ok kvs
      | _ => Except.error PyErr.validationError)
  | some _ => .error .validationError

/-- The `str | None` field `kernel_last_activity_time`. -/
def optStrField (v : Option JValue) : Except PyErr (Option String) :=
  match v with
  | none => .ok none
  | some .null => .ok none
  | some (.str s) => .ok (some s)
  | some _ => .error .validationError

/-- The `bool` field `ready` (only booleans reach it in this code base). -/
def boolField (v : Option JValue) (dflt : Bool) : Except PyErr Bool :=
  match v with
  | none => .ok dflt
  | some (.bool b) => .ok b
  | some _ => .error .validationError

/-- `super().model_validate(obj)`: pydantic field extraction for
`KernelModel` from the mutated dict, by field name (no aliases). -/
def kernelModelFields (f : FreshIds) (d : PyDict) : Except PyErr KernelModel := do
  let kid ← pyStrField (dGetOpt d "kernel_id") f.payloadKernelId
  let spec ← specNameValidate (dGetOpt d "kernel_spec_name")
  let wdir ← pyStrField (dGetOpt d "kernel_working_dir") "/mnt/data"
  let ns ← pyStrField (dGetOpt d "kernel_namespace") "default"
  let vols ← volumesField (dGetOpt d "kernel_volumes")
  let mounts ← volumesField (dGetOpt d "kernel_volume_mounts")
  let idle ← match dGetOpt d "kernel_idle_timeout" with
    | none => pure 3600
    | some v => intCoerce v
  let conn ← match dGetOpt d "kernel_connection_info" with
    | none => pure (connDefault f)
    | some (.obj kvs) => connInfoValidate f.connKernelId f.connKey kvs
    | some _ => Except.error PyErr.validationError
  let img ← pyStrField (dGetOpt d "kernel_image") "zjuici/tablegpt-kernel:0.1.1"
  let kname ← pyStrField (dGetOpt d "kernel_name") ""
  let lat ← optStrField (dGetOpt d "kernel_last_activity_time")
  let rdy ← boolField (dGetOpt d "ready") false
  pure { kernel_id := kid, kernel_spec_name := spec, kernel_working_dir := wdir,
         kernel_namespace := ns, kernel_volumes := vols, kernel_volume_mounts := mounts,
         kernel_idle_timeout := idle, kernel_connection_info := conn, kernel_image := img,
         kernel_name := kname, kernel_last_activity_time := lat, ready := rdy }

/-- `KernelModel.model_validate(obj)` in full: the mutation phase followed
by field extraction; errors carry the dict as mutated so far. -/
def kernelModelValidate (f : FreshIds) (d : PyDict) :
    Except (PyErr × PyDict) (PyDict × KernelModel) :=
  match mvalidateSteps f d with
  | .error e => .error e
  | .ok d2 =>
    match kernelModelFields f d2 with
    | .error e => .error (e, d2)
    | .ok m => .ok (d2, m)

/-- The produced view alone. -/
def kernelModelOf (f : FreshIds) (d : PyDict) : Except PyErr KernelModel :=
  match kernelModelValidate f d with
  | .error e => .error e.1
  | .ok r => .ok r.2

/-! ## Outbound mapping: the CR document built by
`JupyterKernelClient.acreate` (mkm/jupyter_kernel_client/client.py,
lines 153-190). -/

/-- The container `env`: every entry of the serialised payload whose key
starts with `KERNEL_`, emitted as `{name, value}` objects. -/
def crEnvPairs (dump : PyDict) : PyDict :=
  dump.filter (fun kv => strStartsWith kv.1 "KERNEL_")

/-- The env pairs wrapped as the JSON array the CR carries. -/
def crEnvArr (dump : PyDict) : JValue :=
  .arr ((crEnvPairs dump).map (fun kv => .obj [("name", .str kv.1), ("value", kv.2)]))

/-- The `kernel_dict` of `acreate`, parameterised by the payload's
`model_dump(by_alias=True)` (which depends on the payload's runtime
class). -/
def buildKernelDict (dump : PyDict) (p : KernelPayload) : PyDict :=
  [("apiVersion", .str (KERNEL_GROUP ++ "/" ++ KERNEL_VERSION)),
   ("kind", .str "Kernel"),
   ("metadata", .obj
      [("labels", .obj
          [(KERNEL_ID_LABEL, .str p.kernel_id),
           (KERNEL_MANAGER_NAME_LABEL, .str (p.kernel_spec_name.val ++ "-" ++ p.kernel_id)),
           (KERNEL_SPEC_NAME_LABEL, .str p.kernel_spec_name.val)]),
       ("name", .str (p.kernel_spec_name.val ++ "-" ++ p.kernel_id)),
       ("namespace", .str p.kernel_namespace)]),
   ("spec", .obj
      [("idleTimeoutSeconds", .int p.kernel_idle_timeout),
       ("cullingIntervalSeconds", .int 60),
       ("kernelConnectionConfig", .obj (connInfoDump p.kernel_connection_info)),
       ("template", .obj
          [("spec", .obj
              [("containers", .arr
                  [.obj
                     [("env", crEnvArr dump),
                      ("image", .str p.kernel_image),
                      ("name", .str "ipykernel"),
                      ("volumeMounts", .arr (p.kernel_volume_mounts.map .obj)),
                      ("workingDir", .str p.kernel_working_dir),
                      ("command", .arr
                         [.str "python", .str "-m", .str "ipykernel", .str "-f",
                          .str "$(KERNEL_CONNECTION_FILE_PATH)"])]]),
               ("restartPolicy", .str "Never"),
               ("volumes", .arr (p.kernel_volumes.map .obj))])])])]

/-- `acreate`'s CR document for a plain `KernelPayload`. -/
def buildKernelDictPlain (p : KernelPayload) : PyDict :=
  buildKernelDict (payloadDump p) p

/-- `acreate`'s CR document for the `AliasKernelPayload` the POST handler
passes in. -/
def buildKernelDictAlias (a : AliasKernelPayload) : PyDict :=
  buildKernelDict (aliasDump a) a.toKernelPayload

/-! ## The HTTP facade and client operations. -/

/-- The POST /api/kernels input filtering
(mkm/handlers/kernel_handlers.py, lines 49-50): keep env entries whose key
starts with `KERNEL_`, then overlay `KERNEL_SPEC_NAME` from the top-level
`name`. -/
def postFilter (name : KernelSpecName) (env : PyDict) : PyDict :=
  dSet (env.foldl (fun acc kv =>
    if strStartsWith kv.1 "KERNEL_" then dSet acc kv.1 kv.2 else acc) [])
    "KERNEL_SPEC_NAME" (kernelSpecNameJ name)

/-- The `ApiException` classification in `acreate`
(mkm/jupyter_kernel_client/client.py, lines 202-217): 409 becomes
`KernelExistsError`; 403 becomes `KernelCreationError` (the response body
is never inspected); everything else becomes `KernelCreationError`. -/
def acreateClassifyApiErr (status : Nat) (_body : String) : KErr :=
  if status == 409 then .kernelExists
  else if status == 403 then .kernelCreation
  else .kernelCreation

/-- The POST handler's `except` chain (mkm/handlers/kernel_handlers.py,
lines 58-71) mapped to HTTP status codes, in clause order; `none` is an
uncaught exception. -/
def postErrStatus (e : KErr) : Option Nat :=
  if e.isExistsErr then some 409
  else if e.isQuotaErr then some 403
  else if e.isCreationErr then some 500
  else if e.isRetrieveErr then some 500
  else if e.isTimeoutErr then some 500
  else none

/-- `_wait_for_kernel_ready` (client.py, lines 385-428).  `get n` is the
outcome of `aget_kernel_by_id` at elapsed second `n` (each loop iteration
sleeps one second, so the poll index is the elapsed time); any exception
from the body is re-raised as a fresh `KernelRetrieveError`; a ready
kernel returns `true`; elapsed time strictly beyond the timeout returns
`false`. -/
def waitForKernelReady (get : Nat → Except KErr Bool) (timeout : Nat) (n : Nat) :
    Except KErr Bool :=
  match get n with
  | .error _ => .error .kernelRetrieve
  | .ok true => .ok true
  | .ok false =>
    if timeout < n then .ok false
    else waitForKernelReady get timeout (n + 1)
termination_by timeout + 1 - n
decreasing_by simp_wf; omega

/-- An error escaping a service operation: a raw Python exception or a
`BaseKernelError`. -/
inductive SvcErr where
  | py : PyErr → SvcErr
  | k : KErr → SvcErr
deriving DecidableEq, Repr

/-- The kernel-id label of a stored CR document, as the Kubernetes label
selector reads it (external collaborator). -/
def docLabelKernelId (doc : PyDict) : Option String :=
  match dGetOpt doc "metadata" with
  | some (.obj m) =>
    match dGetOpt m "labels" with
    | some (.obj ls) =>
      match dGetOpt ls KERNEL_ID_LABEL with
      | some (.str s) => some s
      | _ => none
    | _ => none
  | _ => none

/-- A metadata string field of a stored CR document. -/
def docMetaStr (doc : PyDict) (k : String) : Option String :=
  match dGetOpt doc "metadata" with
  | some (.obj m) =>
    match dGetOpt m k with
    | some (.str s) => some s
    | _ => none
  | _ => none

/-- The Kubernetes list call with `label_selector=<group>/kernel-id=<kid>`
and `limit=1` over the stored documents. -/
def listById (world : List PyDict) (kid : String) : List PyDict :=
  (world.filter (fun doc => docLabelKernelId doc = some kid)).take 1

/-- `aget_kernel_by_id` (client.py, lines 279-334), modelled after a
successful HTTP exchange: an empty selector result raises
`KernelNotFoundError`, otherwise the first item is mapped through
`KernelModel.model_validate` (whose raw exceptions propagate). -/
def agetKernelById (f : FreshIds) (world : List PyDict) (kid : String) :
    Except SvcErr KernelModel :=
  match listById world kid with
  | [] => .error (.k .kernelNotFound)
  | doc :: _ =>
    match kernelModelOf f doc with
    | .error e => .error (.py e)
    | .ok m => .ok m

/-- The Kubernetes namespaced delete endpoint over the stored documents:
`none` models an `ApiException` (no such object). -/
def kubeDeleteNs (world : List PyDict) (ns nm : String) : Option (List PyDict) :=
  if world.any (fun doc => docMetaStr doc "namespace" == some ns && docMetaStr doc "name" == some nm) then
    some (world.filter (fun doc =>
      !(docMetaStr doc "namespace" == some ns && docMetaStr doc "name" == some nm)))
  else none

/-- `adelete_by_kernel_id` (client.py, lines 336-383): resolve through
`aget_kernel_by_id`; a `KernelRetrieveError` (including the not-found
subclass) is swallowed into a silent success; an `ApiException` from the
delete endpoint becomes `KernelDeleteError`.  Returns the outcome, the
remaining documents, and the number of delete-endpoint invocations. -/
def adeleteByKernelId (f : FreshIds) (world : List PyDict) (kid : String) :
    Except SvcErr Unit × List PyDict × Nat :=
  match agetKernelById f world kid with
  | .error (.k e) =>
    if e.isRetrieveErr then (.ok (), world, 0) else (.error (.k e), world, 0)
  | .error (.py e) => (.error (.py e), world, 0)
  | .ok m =>
    match kubeDeleteNs world m.kernel_namespace m.kernel_name with
    | some world2 => (.ok (), world2, 1)
    | none => (.error (.k .kernelDelete), world, 1)

/-- `KubeMultiKernelManager.aremove_kernel` (kernel_manager.py, lines
93-103): `KernelDeleteError` is swallowed. -/
def aremoveKernel (f : FreshIds) (world : List PyDict) (kid : String) :
    Except SvcErr Unit × List PyDict × Nat :=
  match adeleteByKernelId f world kid with
  | (.error (.k e), w, n) =>
    if e.isDeleteErr then (.ok (), w, n) else (.error (.k e), w, n)
  | r => r

/-- `KernelHandler.delete` (mkm/handlers/kernel_handlers.py, lines
124-130): remove, then an empty 200; an uncaught error is a 500. -/
def handlerDeleteById (f : FreshIds) (world : List PyDict) (kid : String) :
    Nat × List PyDict × Nat :=
  match aremoveKernel f world kid with
  | (.ok _, w, n) => (200, w, n)
  | (.error _, w, n) => (500, w, n)

/-- `KubeMultiKernelManager.aget_kernel` (kernel_manager.py, lines
162-182): an unready kernel is returned as nothing. -/
def managerAgetKernel (f : FreshIds) (world : List PyDict) (kid : String) :
    Except SvcErr (Option KernelModel) :=
  match agetKernelById f world kid with
  | .error e => .error e
  | .ok m => if m.ready then .ok (some m) else .ok none

/-- `KernelHandler.get` (mkm/handlers/kernel_handlers.py, lines 108-122):
`KernelNotFoundError` and a nothing-result map to 404, every other error
to 500, a kernel to 200. -/
def handlerGetStatus (f : FreshIds) (world : List PyDict) (kid : String) : Nat :=
  match managerAgetKernel f world kid with
  | .error (.k .kernelNotFound) => 404
  | .error _ => 500
  | .ok none => 404
  | .ok (some _) => 200

/-- `KernelResponse.model_validate(kernel).model_dump()`
(km_apiserver/handlers/schema.py, lines 51-67): `id`, `name`,
`last_activity` (a required string: a view without one fails validation),
`execution_state` from `ready` through the bool-to-state validator, and
`connections` defaulting to 0 because `KernelModel` has no
`kernel_connections` attribute. -/
def kernelResponseOf (m : KernelModel) : Except PyErr PyDict :=
  match m.kernel_last_activity_time with
  | none => .error .validationError
  | some t =>
    .ok [("id", .str m.kernel_id), ("name", .str m.kernel_name),
         ("last_activity", .str t),
         ("execution_state", .str (if m.ready then "idle" else "starting")),
         ("connections", .int 0)]

/-! ## Derived notions and shared sample data. -/

/-- The CR's `status.phase`, read non-destructively. -/
def statusPhase (d : PyDict) : Option JValue :=
  match dGetOpt d "status" with
  | some (.obj kvs) => dGetOpt kvs "phase"
  | _ => none

/-- Well-formedness of a CR document as delivered by the Kubernetes API:
only the five top-level CR keys, and `metadata`/`status`, when present,
are objects. -/
def CRTopWF (d : PyDict) : Prop :=
  (∀ kv ∈ d, kv.1 ∈ (["apiVersion", "kind", "metadata", "spec", "status"] : List String)) ∧
  (∀ v, dGetOpt d "status" = some v → ∃ kvs, v = JValue.obj kvs) ∧
  (∀ v, dGetOpt d "metadata" = some v → ∃ kvs, v = JValue.obj kvs)

/-- The twelve keys the inbound mapping writes onto the caller's dict. -/
def writeKeys : List String :=
  ["kernel_name", "kernel_namespace", "ready", "kernel_id", "kernel_connection_info",
   "kernel_envs", "kernel_volumes", "kernel_volume_mounts", "kernel_image",
   "kernel_idle_timeout", "kernel_working_dir", "kernel_last_activity_time"]

/-- The dict state carried by a step outcome (mutations are in place, so
an exception still leaves the caller holding this dict). -/
def stepDict : StepResult → PyDict
  | .ok d => d
  | .error e => e.2

/-- The caller-visible dict after `KernelModel.model_validate`, whether it
succeeded or raised. -/
def resultDict : Except (PyErr × PyDict) (PyDict × KernelModel) → PyDict
  | .ok r => r.1
  | .error e => e.2

/-- The raised exception of `KernelModel.model_validate`, if any. -/
def stepErrOf : Except (PyErr × PyDict) (PyDict × KernelModel) → Option PyErr
  | .ok _ => none
  | .error e => some e.1

/-- Fixed fresh-UUID triple for the concrete scenarios. -/
def fSample : FreshIds := ⟨"fresh-payload-id", "fresh-conn-id", "fresh-conn-key"⟩

/-- A fixed connection-info value for the concrete scenarios. -/
def connSample : KernelConnectionInfoModel :=
  { kernel_id := "test-id", key := "test-key" }

/-- A complete CR document in phase `Running`, shaped like the documents
the test suite feeds the client. -/
def crDocRunning : PyDict :=
  [("apiVersion", .str "jupyter.org/v1"), ("kind", .str "Kernel"),
   ("metadata", .obj
      [("labels", .obj [(KERNEL_ID_LABEL, .str "test-id")]),
       ("name", .str "python-test-id"),
       ("namespace", .str "default"),
       ("creationTimestamp", .str "2024-01-01T00:00:00Z")]),
   ("status", .obj [("phase", .str "Running"), ("ip", .str "10.0.0.1")]),
   ("spec", .obj
      [("kernelConnectionConfig", .obj (connInfoDump connSample)),
       ("idleTimeoutSeconds", .int 3600),
       ("template", .obj [("spec", .obj
          [("containers", .arr [.obj
              [("env", .arr []), ("image", .str "zjuici/tablegpt-kernel:0.1.1"),
               ("volumeMounts", .arr []), ("workingDir", .str "/mnt/data")]]),
           ("volumes", .arr [])])])])]

/-- The same document with phase `Pending`. -/
def crDocPending : PyDict := dSet crDocRunning "status" (.obj [("phase", .str "Pending")])

/-- The same document with the `<group>/kernel-id` label missing. -/
def crDocNoLabel : PyDict :=
  dSet crDocRunning "metadata" (.obj
    [("labels", .obj []), ("name", .str "python-test-id"),
     ("namespace", .str "default"),
     ("creationTimestamp", .str "2024-01-01T00:00:00Z")])

/-! ## Basic lemmas about the embedded primitives. -/

theorem dGetOpt_dSet (d : PyDict) (k k2 : String) (v : JValue) :
    dGetOpt (dSet d k v) k2 = if k2 = k then some v else dGetOpt d k2 := by
  induction d with
  | nil =>
    by_cases h : k2 = k
    · subst h; simp [dSet, dGetOpt]
    · simp only [dSet, dGetOpt, if_neg h]
      rw [if_neg]
      simp only [beq_iff_eq]
      exact fun hh => h hh.symm
  | cons kv d ih =>
    simp only [dSet]
    by_cases h1 : kv.1 = k
    · simp only [h1, beq_self_eq_true, if_true]
      by_cases h : k2 = k
      · subst h; simp [dGetOpt]
      · simp only [dGetOpt, if_neg h]
        rw [if_neg, if_neg]
        · simp only [beq_iff_eq, h1]; exact fun hh => h hh.symm
        · simp only [beq_iff_eq]; exact fun hh => h hh.symm
    · rw [if_neg (by simpa [beq_iff_eq] using h1)]
      by_cases h : k2 = k
      · subst h
        simp [dGetOpt, ih, h1]
      · by_cases h2 : kv.1 = k2
        · simp [dGetOpt, h2, if_neg h]
        · simp [dGetOpt, ih, h, h2]

theorem dGetOpt_eq_none_of_keys (d : PyDict) (k : String)
    (h : ∀ kv ∈ d, kv.1 ≠ k) : dGetOpt d k = none := by
  induction d with
  | nil => rfl
  | cons kv d ih =>
    simp only [dGetOpt]
    rw [if_neg (by simpa [beq_iff_eq] using h kv (List.mem_cons_self kv d))]
    exact ih (fun kv2 h2 => h kv2 (List.mem_cons_of_mem kv h2))

theorem beq_str_iff (v : JValue) (s : String) :
    (v == JValue.str s) = true ↔ v = JValue.str s := by
  cases v <;> simp [BEq.beq, JValue.beq]

/-! ## Frame lemmas: each mutation step touches exactly one key. -/

theorem stepBind_frame (d : PyDict) (r : StepResult) (g : PyDict → StepResult) (k : String)
    (hr : dGetOpt (stepDict r) k = dGetOpt d k)
    (hg : ∀ d1, r = .ok d1 → dGetOpt (stepDict (g d1)) k = dGetOpt d1 k) :
    dGetOpt (stepDict (stepBind r g)) k = dGetOpt d k := by
  cases r with
  | error e => simpa [stepBind, stepDict] using hr
  | ok d1 =>
    simp only [stepBind]
    rw [hg d1 rfl]
    simpa [stepDict] using hr

theorem stepBind_ok (r : StepResult) (g : PyDict → StepResult) (d2 : PyDict)
    (h : stepBind r g = .ok d2) : ∃ d1, r = .ok d1 ∧ g d1 = .ok d2 := by
  cases r with
  | error e => simp [stepBind] at h
  | ok d1 => exact ⟨d1, rfl, by simpa [stepBind] using h⟩

theorem sKernelName_frame (d : PyDict) (k : String) (hk : k ≠ "kernel_name") :
    dGetOpt (stepDict (sKernelName d)) k = dGetOpt d k := by
  unfold sKernelName
  repeat' split
  all_goals simp [stepDict, dGetOpt_dSet, hk]

theorem sKernelNamespace_frame (d : PyDict) (k : String) (hk : k ≠ "kernel_namespace") :
    dGetOpt (stepDict (sKernelNamespace d)) k = dGetOpt d k := by
  unfold sKernelNamespace
  repeat' split
  all_goals simp [stepDict, dGetOpt_dSet, hk]

theorem sReady_frame (d : PyDict) (k : String) (hk : k ≠ "ready") :
    dGetOpt (stepDict (sReady d)) k = dGetOpt d k := by
  unfold sReady
  repeat' split
  all_goals simp [stepDict, dGetOpt_dSet, hk]

theorem sKernelId_frame (d : PyDict) (k : String) (hk : k ≠ "kernel_id") :
    dGetOpt (stepDict (sKernelId d)) k = dGetOpt d k := by
  unfold sKernelId
  repeat' split
  all_goals simp [stepDict, dGetOpt_dSet, hk]

theorem sConnInfo_frame (f : FreshIds) (d : PyDict) (k : String)
    (hk : k ≠ "kernel_connection_info") :
    dGetOpt (stepDict (sConnInfo f d)) k = dGetOpt d k := by
  unfold sConnInfo
  repeat' split
  all_goals simp [stepDict, dGetOpt_dSet, hk]

theorem sEnvs_frame (d : PyDict) (k : String) (hk : k ≠ "kernel_envs") :
    dGetOpt (stepDict (sEnvs d)) k = dGetOpt d k := by
  unfold sEnvs
  repeat' split
  all_goals simp [stepDict, dGetOpt_dSet, hk]

theorem sVolumes_frame (d : PyDict) (k : String) (hk : k ≠ "kernel_volumes") :
    dGetOpt (stepDict (sVolumes d)) k = dGetOpt d k := by
  unfold sVolumes
  repeat' split
  all_goals simp [stepDict, dGetOpt_dSet, hk]

theorem sMounts_frame (d : PyDict) (k : String) (hk : k ≠ "kernel_volume_mounts") :
    dGetOpt (stepDict (sMounts d)) k = dGetOpt d k := by
  unfold sMounts
  repeat' split
  all_goals simp [stepDict, dGetOpt_dSet, hk]

theorem sImage_frame (d : PyDict) (k : String) (hk : k ≠ "kernel_image") :
    dGetOpt (stepDict (sImage d)) k = dGetOpt d k := by
  unfold sImage
  repeat' split
  all_goals simp [stepDict, dGetOpt_dSet, hk]

theorem sIdle_frame (d : PyDict) (k : String) (hk : k ≠ "kernel_idle_timeout") :
    dGetOpt (stepDict (sIdle d)) k = dGetOpt d k := by
  unfold sIdle
  repeat' split
  all_goals simp [stepDict, dGetOpt_dSet, hk]

theorem sWorkingDir_frame (d : PyDict) (k : String) (hk : k ≠ "kernel_working_dir") :
    dGetOpt (stepDict (sWorkingDir d)) k = dGetOpt d k := by
  unfold sWorkingDir
  repeat' split
  all_goals simp [stepDict, dGetOpt_dSet, hk]

theorem sLastActivity_frame (d : PyDict) (k : String) (hk : k ≠ "kernel_last_activity_time") :
    dGetOpt (stepDict (sLastActivity d)) k = dGetOpt d k := by
  unfold sLastActivity
  repeat' split
  all_goals simp [stepDict, dGetOpt_dSet, hk]

/-- The tail of the mutation phase leaves every key other than its nine
write targets untouched. -/
theorem mvalidateTail_frame (f : FreshIds) (d3 : PyDict) (k : String)
    (hk : k ∉ (["kernel_id", "kernel_connection_info", "kernel_envs", "kernel_volumes",
                "kernel_volume_mounts", "kernel_image", "kernel_idle_timeout",
                "kernel_working_dir", "kernel_last_activity_time"] : List String)) :
    dGetOpt (stepDict (mvalidateTail f d3)) k = dGetOpt d3 k := by
  simp only [List.mem_cons, List.not_mem_nil, or_false, not_or] at hk
  obtain ⟨h4, h5, h6, h7, h8, h9, h10, h11, h12⟩ := hk
  unfold mvalidateTail
  refine stepBind_frame d3 _ _ k (sKernelId_frame d3 k h4) (fun d4 _ => ?_)
  refine stepBind_frame d4 _ _ k (sConnInfo_frame f d4 k h5) (fun d5 _ => ?_)
  refine stepBind_frame d5 _ _ k (sEnvs_frame d5 k h6) (fun d6 _ => ?_)
  refine stepBind_frame d6 _ _ k (sVolumes_frame d6 k h7) (fun d7 _ => ?_)
  refine stepBind_frame d7 _ _ k (sMounts_frame d7 k h8) (fun d8 _ => ?_)
  refine stepBind_frame d8 _ _ k (sImage_frame d8 k h9) (fun d9 _ => ?_)
  refine stepBind_frame d9 _ _ k (sIdle_frame d9 k h10) (fun d10 _ => ?_)
  refine stepBind_frame d10 _ _ k (sWorkingDir_frame d10 k h11) (fun d11 _ => ?_)
  exact sLastActivity_frame d11 k h12

/-- The whole mutation phase leaves every key outside `writeKeys`
untouched, whether it completes or raises part-way. -/
theorem mvalidateSteps_frame (f : FreshIds) (d : PyDict) (k : String) (hk : k ∉ writeKeys) :
    dGetOpt (stepDict (mvalidateSteps f d)) k = dGetOpt d k := by
  simp only [writeKeys, List.mem_cons, List.not_mem_nil, or_false, not_or] at hk
  obtain ⟨h1, h2, h3, h4, h5, h6, h7, h8, h9, h10, h11, h12⟩ := hk
  unfold mvalidateSteps
  refine stepBind_frame d _ _ k (sKernelName_frame d k h1) (fun d1 _ => ?_)
  refine stepBind_frame d1 _ _ k (sKernelNamespace_frame d1 k h2) (fun d2 _ => ?_)
  refine stepBind_frame d2 _ _ k (sReady_frame d2 k h3) (fun d3 _ => ?_)
  exact mvalidateTail_frame f d3 k (by
    simp only [List.mem_cons, List.not_mem_nil, or_false, not_or]
    exact ⟨h4, h5, h6, h7, h8, h9, h10, h11, h12⟩)

theorem any_key_eq_isSome (kvs : PyDict) (k : String) :
    kvs.any (fun kv => kv.1 == k) = (dGetOpt kvs k).isSome := by
  induction kvs with
  | nil => rfl
  | cons kv d ih =>
    by_cases h : kv.1 = k <;> simp [dGetOpt, h, ih]

/-- What the `ready` step leaves under `"ready"` when it does not raise: a
`True` exactly when `status.phase` is `"Running"`, the prior value
otherwise. -/
theorem sReady_ok_val (d d' : PyDict) (h : sReady d = .ok d') :
    (statusPhase d = some (.str "Running") ∧ dGetOpt d' "ready" = some (.bool true)) ∨
    (statusPhase d ≠ some (.str "Running") ∧ dGetOpt d' "ready" = dGetOpt d "ready") := by
  unfold sReady at h
  split at h
  · -- no "status" key
    next hs =>
    injection h with h
    subst h
    exact Or.inr ⟨by simp [statusPhase, hs], rfl⟩
  · -- "status" present
    next sv hs =>
    split at h
    · exact absurd h (by simp)
    · -- `"phase" in status` is false
      next hc =>
      injection h with h
      subst h
      refine Or.inr ⟨?_, rfl⟩
      cases sv with
      | obj kvs =>
        simp only [pyContains, any_key_eq_isSome] at hc
        injection hc with hc
        rw [Bool.eq_false_iff, Ne, Option.isSome_iff_exists] at hc
        push_neg at hc
        have hnone : dGetOpt kvs "phase" = none := by
          cases hx : dGetOpt kvs "phase" with
          | none => rfl
          | some w => exact absurd hx (hc w)
        simp [statusPhase, hs, hnone]
      | str s => simp [statusPhase, hs]
      | arr xs => simp [statusPhase, hs]
      | null => simp [statusPhase, hs]
      | bool b => simp [statusPhase, hs]
      | int n => simp [statusPhase, hs]
    · -- `"phase" in status` is true
      next hc =>
      split at h
      · exact absurd h (by simp)
      · -- phase value fetched
        next v hv =>
        split at h
        · -- phase == "Running"
          next hr =>
          injection h with h
          subst h
          refine Or.inl ⟨?_, by simp [dGetOpt_dSet]⟩
          cases sv with
          | obj kvs =>
            simp only [pyGet] at hv
            cases hp : dGetOpt kvs "phase" with
            | none => rw [hp] at hv; exact absurd hv (by simp)
            | some w =>
              rw [hp] at hv
              injection hv with hv
              subst hv
              rw [beq_str_iff] at hr
              simp [statusPhase, hs, hp, hr]
          | str s => simp [pyGet] at hv
          | arr xs => simp [pyGet] at hv
          | null => simp [pyGet] at hv
          | bool b => simp [pyGet] at hv
          | int n => simp [pyGet] at hv
        · -- phase != "Running"
          next hr =>
          injection h with h
          subst h
          refine Or.inr ⟨?_, rfl⟩
          cases sv with
          | obj kvs =>
            simp only [pyGet] at hv
            cases hp : dGetOpt kvs "phase" with
            | none => rw [hp] at hv; exact absurd hv (by simp)
            | some w =>
              rw [hp] at hv
              injection hv with hv
              subst hv
              simp only [statusPhase, hs, hp]
              intro hcontra
              injection hcontra with hcontra
              rw [hcontra] at hr
              simp [beq_str_iff] at hr
          | str s => simp [pyGet] at hv
          | arr xs => simp [pyGet] at hv
          | null => simp [pyGet] at hv
          | bool b => simp [pyGet] at hv
          | int n => simp [pyGet] at hv

/-- `ready` after the whole mutation phase, on success. -/
theorem mvalidateSteps_ready (f : FreshIds) (d df : PyDict)
    (h : mvalidateSteps f d = .ok df) :
    (statusPhase d = some (.str "Running") ∧ dGetOpt df "ready" = some (.bool true)) ∨
    (statusPhase d ≠ some (.str "Running") ∧ dGetOpt df "ready" = dGetOpt d "ready") := by
  unfold mvalidateSteps at h
  obtain ⟨d1, hs1, h⟩ := stepBind_ok _ _ _ h
  obtain ⟨d2, hs2, h⟩ := stepBind_ok _ _ _ h
  obtain ⟨d3, hs3, h⟩ := stepBind_ok _ _ _ h
  have hstat : dGetOpt d2 "status" = dGetOpt d "status" := by
    have e1 := sKernelName_frame d "status" (by decide)
    rw [hs1] at e1
    have e2 := sKernelNamespace_frame d1 "status" (by decide)
    rw [hs2] at e2
    simp only [stepDict] at e1 e2
    exact e2.trans e1
  have hr12 : dGetOpt d2 "ready" = dGetOpt d "ready" := by
    have e1 := sKernelName_frame d "ready" (by decide)
    rw [hs1] at e1
    have e2 := sKernelNamespace_frame d1 "ready" (by decide)
    rw [hs2] at e2
    simp only [stepDict] at e1 e2
    exact e2.trans e1
  have hrT : dGetOpt df "ready" = dGetOpt d3 "ready" := by
    have e := mvalidateTail_frame f d3 "ready" (by decide)
    rw [h] at e
    simpa [stepDict] using e
  have hphase : statusPhase d2 = statusPhase d := by
    unfold statusPhase
    rw [hstat]
  rcases sReady_ok_val d2 d3 hs3 with ⟨hc, hv⟩ | ⟨hc, hv⟩
  · exact Or.inl ⟨by rw [← hphase]; exact hc, by rw [hrT, hv]⟩
  · exact Or.inr ⟨by rw [← hphase]; exact hc, by rw [hrT, hv, hr12]⟩

/-- The pydantic phase reads each `KernelModel` field from the mutated
dict through the stated field validator. -/
theorem kernelModelFields_spec (f : FreshIds) (d : PyDict) (m : KernelModel)
    (h : kernelModelFields f d = .ok m) :
    pyStrField (dGetOpt d "kernel_id") f.payloadKernelId = .ok m.kernel_id ∧
    specNameValidate (dGetOpt d "kernel_spec_name") = .ok m.kernel_spec_name ∧
    pyStrField (dGetOpt d "kernel_working_dir") "/mnt/data" = .ok m.kernel_working_dir ∧
    pyStrField (dGetOpt d "kernel_namespace") "default" = .ok m.kernel_namespace ∧
    volumesField (dGetOpt d "kernel_volumes") = .ok m.kernel_volumes ∧
    volumesField (dGetOpt d "kernel_volume_mounts") = .ok m.kernel_volume_mounts ∧
    pyStrField (dGetOpt d "kernel_image") "zjuici/tablegpt-kernel:0.1.1" = .ok m.kernel_image ∧
    pyStrField (dGetOpt d "kernel_name") "" = .ok m.kernel_name ∧
    optStrField (dGetOpt d "kernel_last_activity_time") = .ok m.kernel_last_activity_time ∧
    boolField (dGetOpt d "ready") false = .ok m.ready := by
  unfold kernelModelFields at h
  simp only [bind, Except.bind, pure, Except.pure] at h
  repeat' split at h
  all_goals try exact (Except.noConfusion h)
  all_goals
    injection h with h
    subst h
    refine ⟨?_, ?_, ?_, ?_, ?_, ?_, ?_, ?_, ?_, ?_⟩ <;> assumption

/-- Claims' shared core: for a well-formed CR document that maps
successfully, the view's `ready` is `true` exactly when `status.phase` is
`"Running"`. -/
theorem kernelModel_ready_iff (f : FreshIds) (d : PyDict) (m : KernelModel)
    (hwf : CRTopWF d) (h : kernelModelOf f d = .ok m) :
    (m.ready = true ↔ statusPhase d = some (.str "Running")) := by
  have h0 : dGetOpt d "ready" = none := by
    apply dGetOpt_eq_none_of_keys
    intro kv hkv
    have hmem := hwf.1 kv hkv
    simp only [List.mem_cons, List.not_mem_nil, or_false] at hmem
    rcases hmem with h1 | h1 | h1 | h1 | h1 <;> (rw [h1]; decide)
  unfold kernelModelOf kernelModelValidate at h
  cases hms : mvalidateSteps f d with
  | error e => simp only [hms] at h; exact (Except.noConfusion h)
  | ok d2 =>
    simp only [hms] at h
    cases hmf : kernelModelFields f d2 with
    | error e => simp only [hmf] at h; exact (Except.noConfusion h)
    | ok m2 =>
      simp only [hmf, Except.ok.injEq] at h
      subst h
      obtain ⟨-, -, -, -, -, -, -, -, -, hb⟩ := kernelModelFields_spec f d2 m2 hmf
      rcases mvalidateSteps_ready f d d2 hms with ⟨hc, hv⟩ | ⟨hc, hv⟩
      · rw [hv] at hb
        simp only [boolField] at hb
        injection hb with hb
        simp [← hb, hc]
      · rw [hv, h0] at hb
        simp only [boolField] at hb
        injection hb with hb
        constructor
        · intro hr
          rw [← hb] at hr
          exact absurd hr (by simp)
        · intro hcond
          exact absurd hcond hc

/-- Field-by-field reading of a successful `AliasKernelPayload`
validation. -/
theorem aliasValidate_spec (f : FreshIds) (vals : PyDict) (a : AliasKernelPayload)
    (h : aliasValidate f vals = .ok a) :
    pyStrField (dGetOpt vals "KERNEL_ID") f.payloadKernelId = .ok a.kernel_id ∧
    specNameValidate (dGetOpt vals "KERNEL_SPEC_NAME") = .ok a.kernel_spec_name ∧
    pyStrField (dGetOpt vals "KERNEL_WORKING_DIR") "/mnt/data" = .ok a.kernel_working_dir ∧
    pyStrField (dGetOpt vals "KERNEL_NAMESPACE") "default" = .ok a.kernel_namespace ∧
    (∀ v, dGetOpt vals "KERNEL_VOLUMES" = some v →
       volumesValidate v = .ok a.kernel_volumes) ∧
    (∀ v, dGetOpt vals "KERNEL_VOLUME_MOUNTS" = some v →
       volumesValidate v = .ok a.kernel_volume_mounts) ∧
    (∀ v, dGetOpt vals "KERNEL_IDLE_TIMEOUT" = some v →
       intCoerce v = .ok a.kernel_idle_timeout) ∧
    pyStrField (dGetOpt vals "KERNEL_IMAGE") "zjuici/tablegpt-kernel:0.1.1" = .ok a.kernel_image ∧
    pyStrField (dGetOpt vals "KERNEL_LANGUAGE") "python" = .ok a.kernel_language ∧
    pyStrField (dGetOpt vals "KERNEL_USERNAME") "default" = .ok a.kernel_username := by
  unfold aliasValidate at h
  simp only [bind, Except.bind, pure, Except.pure] at h
  repeat' split at h
  all_goals try exact (Except.noConfusion h)
  all_goals
    injection h with h
    subst h
    refine ⟨?_, ?_, ?_, ?_, ?_, ?_, ?_, ?_, ?_, ?_⟩ <;> simp_all

/-- The dumped alias payload filtered to `KERNEL_`-prefixed keys: every
payload field except the unaliased `kernel_connection_info`. -/
theorem crEnvPairs_aliasDump (a : AliasKernelPayload) :
    crEnvPairs (aliasDump a) =
      [("KERNEL_ID", .str a.kernel_id),
       ("KERNEL_SPEC_NAME", kernelSpecNameJ a.kernel_spec_name),
       ("KERNEL_WORKING_DIR", .str a.kernel_working_dir),
       ("KERNEL_NAMESPACE", .str a.kernel_namespace),
       ("KERNEL_VOLUMES", .arr (a.kernel_volumes.map .obj)),
       ("KERNEL_VOLUME_MOUNTS", .arr (a.kernel_volume_mounts.map .obj)),
       ("KERNEL_IDLE_TIMEOUT", .int a.kernel_idle_timeout),
       ("KERNEL_IMAGE", .str a.kernel_image),
       ("KERNEL_LANGUAGE", .str a.kernel_language),
       ("KERNEL_USERNAME", .str a.kernel_username)] := rfl

/-- A plain `KernelPayload` dumps snake_case keys only, so the filtered
env is empty. -/
theorem crEnvPairs_payloadDump (p : KernelPayload) :
    crEnvPairs (payloadDump p) = [] := rfl

theorem dGetOpt_none_of_not_mem_keys (d : PyDict) (k : String)
    (h : k ∉ d.map Prod.fst) : dGetOpt d k = none := by
  apply dGetOpt_eq_none_of_keys
  intro kv hkv hke
  exact h (hke ▸ List.mem_map_of_mem Prod.fst hkv)

/-- The POST filter writes `KERNEL_SPEC_NAME` from the top-level name. -/
theorem postFilter_specName (name : KernelSpecName) (env : PyDict) :
    dGetOpt (postFilter name env) "KERNEL_SPEC_NAME" = some (kernelSpecNameJ name) := by
  unfold postFilter
  rw [dGetOpt_dSet]
  simp

theorem postFilter_foldl (env : PyDict) (k : String)
    (hnodup : (env.map Prod.fst).Nodup) (A : PyDict) :
    dGetOpt (env.foldl (fun acc kv =>
      if strStartsWith kv.1 "KERNEL_" then dSet acc kv.1 kv.2 else acc) A) k =
      match dGetOpt env k with
      | some v => if strStartsWith k "KERNEL_" then some v else dGetOpt A k
      | none => dGetOpt A k := by
  induction env generalizing A with
  | nil => simp [dGetOpt]
  | cons kv env ih =>
    simp only [List.map_cons, List.nodup_cons] at hnodup
    obtain ⟨hnotin, hnodup⟩ := hnodup
    simp only [List.foldl_cons]
    rw [ih hnodup]
    by_cases hk : kv.1 = k
    · subst hk
      have henv : dGetOpt env kv.1 = none := dGetOpt_none_of_not_mem_keys env kv.1 hnotin
      rw [henv]
      simp only [dGetOpt, beq_self_eq_true, if_pos rfl]
      by_cases hsw : strStartsWith kv.1 "KERNEL_" = true
      · simp [dGetOpt_dSet, hsw]
      · simp [hsw]
    · have hcons : dGetOpt (kv :: env) k = dGetOpt env k := by
        simp only [dGetOpt]
        rw [if_neg (by simpa [beq_iff_eq] using hk)]
      rw [hcons]
      by_cases hsw : strStartsWith kv.1 "KERNEL_" = true
      · rw [if_pos hsw]
        have hset : dGetOpt (dSet A kv.1 kv.2) k = dGetOpt A k := by
          rw [dGetOpt_dSet, if_neg (fun hh => hk hh.symm)]
        cases dGetOpt env k <;> simp [hset]
      · rw [if_neg hsw]

/-- For a duplicate-free env, the POST filter preserves `KERNEL_`-prefixed
entries other than the overlaid `KERNEL_SPEC_NAME` verbatim. -/
theorem dGetOpt_postFilter (name : KernelSpecName) (env : PyDict) (k : String)
    (hk : strStartsWith k "KERNEL_" = true) (hne : k ≠ "KERNEL_SPEC_NAME")
    (hnodup : (env.map Prod.fst).Nodup) :
    dGetOpt (postFilter name env) k = dGetOpt env k := by
  unfold postFilter
  rw [dGetOpt_dSet, if_neg hne, postFilter_foldl env k hnodup]
  cases dGetOpt env k <;> simp [hk, dGetOpt]

/-- One unfolding of the polling loop. -/
theorem waitForKernelReady_eq (get : Nat → Except KErr Bool) (t n : Nat) :
    waitForKernelReady get t n =
      match get n with
      | .error _ => .error .kernelRetrieve
      | .ok true => .ok true
      | .ok false => if t < n then .ok false else waitForKernelReady get t (n + 1) := by
  conv_lhs => rw [waitForKernelReady]

/-- If every poll before second `n` is an unready success within the
timeout window and poll `n` reports ready, the loop returns `true`. -/
theorem wait_reaches_true (get : Nat → Except KErr Bool) (t n : Nat)
    (j : Nat) (hj : j ≤ n)
    (hpre : ∀ m, j ≤ m → m < n → get m = .ok false ∧ ¬ t < m)
    (hn : get n = .ok true) :
    waitForKernelReady get t j = .ok true := by
  have H : ∀ k j, j ≤ n → n - j = k →
      (∀ m, j ≤ m → m < n → get m = .ok false ∧ ¬ t < m) →
      waitForKernelReady get t j = .ok true := by
    intro k
    induction k with
    | zero =>
      intro j hj hk _
      have hjn : j = n := by omega
      subst hjn
      rw [waitForKernelReady_eq, hn]
    | succ k ih =>
      intro j hj hk hpre
      have hjn : j < n := by omega
      obtain ⟨hgj, htj⟩ := hpre j le_rfl hjn
      rw [waitForKernelReady_eq, hgj]
      simp only [if_neg htj]
      exact ih (j + 1) (by omega) (by omega) (fun m hm1 hm2 => hpre m (by omega) hm2)
  exact H (n - j) j hj rfl hpre

/-- If every poll in the window is an unready success, the loop returns
`false` (rather than raising) once the elapsed time exceeds the timeout. -/
theorem wait_times_out (get : Nat → Except KErr Bool) (t : Nat)
    (j : Nat) (hj : j ≤ t + 1)
    (hall : ∀ m, m ≤ t + 1 → get m = .ok false) :
    waitForKernelReady get t j = .ok false := by
  have H : ∀ k j, j ≤ t + 1 → t + 1 - j = k →
      waitForKernelReady get t j = .ok false := by
    intro k
    induction k with
    | zero =>
      intro j hj hk
      have hjn : j = t + 1 := by omega
      subst hjn
      rw [waitForKernelReady_eq, hall (t + 1) le_rfl]
      simp
    | succ k ih =>
      intro j hj hk
      rw [waitForKernelReady_eq, hall j (by omega)]
      simp only [if_neg (by omega : ¬ t < j)]
      exact ih (j + 1) (by omega) (by omega)
  exact H (t + 1 - j) j hj rfl

/-- Any exception at the first non-unready poll is re-raised as a fresh
`KernelRetrieveError`. -/
theorem wait_reraises (get : Nat → Except KErr Bool) (t n : Nat) (e : KErr)
    (j : Nat) (hj : j ≤ n)
    (hpre : ∀ m, j ≤ m → m < n → get m = .ok false ∧ ¬ t < m)
    (hn : get n = .error e) :
    waitForKernelReady get t j = .error .kernelRetrieve := by
  have H : ∀ k j, j ≤ n → n - j = k →
      (∀ m, j ≤ m → m < n → get m = .ok false ∧ ¬ t < m) →
      waitForKernelReady get t j = .error .kernelRetrieve := by
    intro k
    induction k with
    | zero =>
      intro j hj hk _
      have hjn : j = n := by omega
      subst hjn
      rw [waitForKernelReady_eq, hn]
    | succ k ih =>
      intro j hj hk hpre
      have hjn : j < n := by omega
      obtain ⟨hgj, htj⟩ := hpre j le_rfl hjn
      rw [waitForKernelReady_eq, hgj]
      simp only [if_neg htj]
      exact ih (j + 1) (by omega) (by omega) (fun m hm1 hm2 => hpre m (by omega) hm2)
  exact H (n - j) j hj rfl hpre

/-- The loop consults the poll outcomes only at seconds `j .. t + 1`: it
polls once per second and at most `t + 2` times in total. -/
theorem wait_local (get get2 : Nat → Except KErr Bool) (t : Nat)
    (j : Nat) (hj : j ≤ t + 1)
    (hagree : ∀ m, j ≤ m → m ≤ t + 1 → get m = get2 m) :
    waitForKernelReady get t j = waitForKernelReady get2 t j := by
  have H : ∀ k j, j ≤ t + 1 → t + 1 - j = k →
      (∀ m, j ≤ m → m ≤ t + 1 → get m = get2 m) →
      waitForKernelReady get t j = waitForKernelReady get2 t j := by
    intro k
    induction k with
    | zero =>
      intro j hj hk hagree
      have hjn : j = t + 1 := by omega
      subst hjn
      have hg := hagree (t + 1) le_rfl le_rfl
      rw [waitForKernelReady_eq, hg]
      conv_rhs => rw [waitForKernelReady_eq]
      cases get2 (t + 1) with
      | error e => rfl
      | ok b =>
        cases b with
        | true => rfl
        | false => simp
    | succ k ih =>
      intro j hj hk hagree
      have hg := hagree j le_rfl (by omega)
      rw [waitForKernelReady_eq, hg]
      conv_rhs => rw [waitForKernelReady_eq]
      cases get2 j with
      | error e => rfl
      | ok b =>
        cases b with
        | true => rfl
        | false =>
          by_cases ht : t < j
          · simp [ht]
          · simp only [if_neg ht]
            exact ih (j + 1) (by omega) (by omega)
              (fun m hm1 hm2 => hagree m (by omega) hm2)
  exact H (t + 1 - j) j hj rfl hagree

theorem volumesLoop_map_obj (vs acc : List PyDict) :
    List.mapM.loop (fun x =>
      match x with
      | JValue.obj kvs => Except.ok kvs
      | _ => Except.error PyErr.validationError) (vs.map .obj) acc =
    Except.ok (acc.reverse ++ vs) := by
  induction vs generalizing acc with
  | nil => simp [List.mapM.loop, pure, Except.pure]
  | cons v vs ih =>
    simp [List.mapM.loop, ih, bind, Except.bind]

/-- A dumped volume list validates back to itself. -/
theorem volumesField_map_obj (vs : List PyDict) :
    volumesField (some (.arr (vs.map .obj))) = .ok vs := by
  simp [volumesField, List.mapM, volumesLoop_map_obj]

theorem specName_eq_python (s : KernelSpecName) : s = .python := by
  cases s
  rfl

/-- Executable top-level well-formedness check for CR documents. -/
def crTopWFb (d : PyDict) : Bool :=
  d.all (fun kv => (["apiVersion", "kind", "metadata", "spec", "status"] : List String).contains kv.1) &&
  (match dGetOpt d "status" with
   | some (.obj _) => true
   | none => true
   | some _ => false) &&
  (match dGetOpt d "metadata" with
   | some (.obj _) => true
   | none => true
   | some _ => false)

theorem crTopWF_of_b (d : PyDict) (h : crTopWFb d = true) : CRTopWF d := by
  unfold crTopWFb at h
  simp only [Bool.and_eq_true, List.all_eq_true] at h
  obtain ⟨⟨hkeys, hstatus⟩, hmeta⟩ := h
  refine ⟨?_, ?_, ?_⟩
  · intro kv hkv
    exact List.mem_of_elem_eq_true (hkeys kv hkv)
  · intro v hv
    rw [hv] at hstatus
    cases v with
    | obj kvs => exact ⟨kvs, rfl⟩
    | null => simp at hstatus
    | bool b => simp at hstatus
    | int n => simp at hstatus
    | str s => simp at hstatus
    | arr xs => simp at hstatus
  · intro v hv
    rw [hv] at hmeta
    cases v with
    | obj kvs => exact ⟨kvs, rfl⟩
    | null => simp at hmeta
    | bool b => simp at hmeta
    | int n => simp at hmeta
    | str s => simp at hmeta
    | arr xs => simp at hmeta

/-! ## Claim C1. -/

/-- C1, counterexample.  The claim says the surviving env entries carry
the caller-supplied values.  For the creation request with env
`{"KERNEL_IDLE_TIMEOUT": "7200"}` the validation succeeds, the entry
survives, but its value in the CR container env is the integer `7200`,
not the caller's string `"7200"`: the before-validator `int(value)` has
replaced the value. -/
theorem c1_value_not_preserved :
    (Except.map (fun a => dGetOpt (crEnvPairs (aliasDump a)) "KERNEL_IDLE_TIMEOUT")
      (aliasValidate ⟨"fA", "fB", "fC"⟩
        (postFilter .python [("KERNEL_IDLE_TIMEOUT", .str "7200")]))) =
      .ok (some (.int 7200)) ∧
    dGetOpt (postFilter .python [("KERNEL_IDLE_TIMEOUT", .str "7200")])
      "KERNEL_IDLE_TIMEOUT" = some (.str "7200") ∧
    (JValue.int 7200 == JValue.str "7200") = false :=
  ⟨rfl, rfl, rfl⟩

/-- C1 (amended): for every creation request with a duplicate-free env
map that validates, the CR container env built from the resulting payload
contains only `KERNEL_`-prefixed keys; its `KERNEL_SPEC_NAME` entry is
overlaid from the request's top-level name; surviving caller-supplied
entries of the string-typed fields keep their values verbatim; a
caller-supplied `KERNEL_IDLE_TIMEOUT` string survives as the coerced
integer; caller-supplied `KERNEL_VOLUMES` / `KERNEL_VOLUME_MOUNTS` JSON
strings survive as the parsed lists; and caller keys that are not payload
field aliases do not survive into the env at all. -/
theorem c1_env_filtering (f : FreshIds) (name : KernelSpecName) (env : PyDict)
    (a : AliasKernelPayload)
    (hnodup : (env.map Prod.fst).Nodup)
    (h : aliasValidate f (postFilter name env) = .ok a) :
    (∀ kv ∈ crEnvPairs (aliasDump a), strStartsWith kv.1 "KERNEL_" = true) ∧
    dGetOpt (crEnvPairs (aliasDump a)) "KERNEL_SPEC_NAME" = some (kernelSpecNameJ name) ∧
    (∀ k s, k ∈ (["KERNEL_ID", "KERNEL_WORKING_DIR", "KERNEL_NAMESPACE",
                  "KERNEL_IMAGE", "KERNEL_LANGUAGE", "KERNEL_USERNAME"] : List String) →
       dGetOpt env k = some (.str s) →
       dGetOpt (crEnvPairs (aliasDump a)) k = some (.str s)) ∧
    (∀ s n, dGetOpt env "KERNEL_IDLE_TIMEOUT" = some (.str s) → strToIntOpt s = some n →
       dGetOpt (crEnvPairs (aliasDump a)) "KERNEL_IDLE_TIMEOUT" = some (.int n)) ∧
    (∀ s vols, dGetOpt env "KERNEL_VOLUMES" = some (.str s) →
       volumesValidate (.str s) = .ok vols →
       dGetOpt (crEnvPairs (aliasDump a)) "KERNEL_VOLUMES" =
         some (.arr (vols.map .obj))) ∧
    (∀ s vols, dGetOpt env "KERNEL_VOLUME_MOUNTS" = some (.str s) →
       volumesValidate (.str s) = .ok vols →
       dGetOpt (crEnvPairs (aliasDump a)) "KERNEL_VOLUME_MOUNTS" =
         some (.arr (vols.map .obj))) ∧
    (∀ k, k ∉ (["KERNEL_ID", "KERNEL_SPEC_NAME", "KERNEL_WORKING_DIR", "KERNEL_NAMESPACE",
                "KERNEL_VOLUMES", "KERNEL_VOLUME_MOUNTS", "KERNEL_IDLE_TIMEOUT",
                "KERNEL_IMAGE", "KERNEL_LANGUAGE", "KERNEL_USERNAME"] : List String) →
       dGetOpt (crEnvPairs (aliasDump a)) k = none) := by
  obtain ⟨hid, hspec, hwdir, hns, hvols, hmounts, hidle, himg, hlang, huser⟩ :=
    aliasValidate_spec f (postFilter name env) a h
  refine ⟨?_, ?_, ?_, ?_, ?_, ?_, ?_⟩
  · intro kv hkv
    rw [crEnvPairs_aliasDump] at hkv
    simp only [List.mem_cons, List.not_mem_nil, or_false] at hkv
    rcases hkv with rfl | rfl | rfl | rfl | rfl | rfl | rfl | rfl | rfl | rfl <;> rfl
  · have h1 : dGetOpt (crEnvPairs (aliasDump a)) "KERNEL_SPEC_NAME" =
        some (kernelSpecNameJ a.kernel_spec_name) := rfl
    rw [h1, specName_eq_python a.kernel_spec_name, specName_eq_python name]
  · intro k s hk hs
    simp only [List.mem_cons, List.not_mem_nil, or_false] at hk
    rcases hk with rfl | rfl | rfl | rfl | rfl | rfl
    · have he := dGetOpt_postFilter name env "KERNEL_ID" (by decide) (by decide) hnodup
      rw [hs] at he
      rw [he] at hid
      simp only [pyStrField] at hid
      injection hid with hid
      have h1 : dGetOpt (crEnvPairs (aliasDump a)) "KERNEL_ID" =
          some (JValue.str a.kernel_id) := rfl
      rw [h1, ← hid]
    · have he := dGetOpt_postFilter name env "KERNEL_WORKING_DIR" (by decide) (by decide) hnodup
      rw [hs] at he
      rw [he] at hwdir
      simp only [pyStrField] at hwdir
      injection hwdir with hwdir
      have h1 : dGetOpt (crEnvPairs (aliasDump a)) "KERNEL_WORKING_DIR" =
          some (JValue.str a.kernel_working_dir) := rfl
      rw [h1, ← hwdir]
    · have he := dGetOpt_postFilter name env "KERNEL_NAMESPACE" (by decide) (by decide) hnodup
      rw [hs] at he
      rw [he] at hns
      simp only [pyStrField] at hns
      injection hns with hns
      have h1 : dGetOpt (crEnvPairs (aliasDump a)) "KERNEL_NAMESPACE" =
          some (JValue.str a.kernel_namespace) := rfl
      rw [h1, ← hns]
    · have he := dGetOpt_postFilter name env "KERNEL_IMAGE" (by decide) (by decide) hnodup
      rw [hs] at he
      rw [he] at himg
      simp only [pyStrField] at himg
      injection himg with himg
      have h1 : dGetOpt (crEnvPairs (aliasDump a)) "KERNEL_IMAGE" =
          some (JValue.str a.kernel_image) := rfl
      rw [h1, ← himg]
    · have he := dGetOpt_postFilter name env "KERNEL_LANGUAGE" (by decide) (by decide) hnodup
      rw [hs] at he
      rw [he] at hlang
      simp only [pyStrField] at hlang
      injection hlang with hlang
      have h1 : dGetOpt (crEnvPairs (aliasDump a)) "KERNEL_LANGUAGE" =
          some (JValue.str a.kernel_language) := rfl
      rw [h1, ← hlang]
    · have he := dGetOpt_postFilter name env "KERNEL_USERNAME" (by decide) (by decide) hnodup
      rw [hs] at he
      rw [he] at huser
      simp only [pyStrField] at huser
      injection huser with huser
      have h1 : dGetOpt (crEnvPairs (aliasDump a)) "KERNEL_USERNAME" =
          some (JValue.str a.kernel_username) := rfl
      rw [h1, ← huser]
  · intro s n hs hn
    have he := dGetOpt_postFilter name env "KERNEL_IDLE_TIMEOUT" (by decide) (by decide) hnodup
    rw [hs] at he
    have hcoe := hidle (JValue.str s) he
    simp only [intCoerce, hn] at hcoe
    injection hcoe with hcoe
    have h1 : dGetOpt (crEnvPairs (aliasDump a)) "KERNEL_IDLE_TIMEOUT" =
        some (JValue.int a.kernel_idle_timeout) := rfl
    rw [h1, ← hcoe]
  · intro s vols hs hv
    have he := dGetOpt_postFilter name env "KERNEL_VOLUMES" (by decide) (by decide) hnodup
    rw [hs] at he
    have h2 := hvols (JValue.str s) he
    rw [hv] at h2
    injection h2 with h2
    have h1 : dGetOpt (crEnvPairs (aliasDump a)) "KERNEL_VOLUMES" =
        some (JValue.arr (a.kernel_volumes.map .obj)) := rfl
    rw [h1, ← h2]
  · intro s vols hs hv
    have he := dGetOpt_postFilter name env "KERNEL_VOLUME_MOUNTS" (by decide) (by decide) hnodup
    rw [hs] at he
    have h2 := hmounts (JValue.str s) he
    rw [hv] at h2
    injection h2 with h2
    have h1 : dGetOpt (crEnvPairs (aliasDump a)) "KERNEL_VOLUME_MOUNTS" =
        some (JValue.arr (a.kernel_volume_mounts.map .obj)) := rfl
    rw [h1, ← h2]
  · intro k hk
    rw [crEnvPairs_aliasDump]
    apply dGetOpt_eq_none_of_keys
    intro kv hkv
    simp only [List.mem_cons, List.not_mem_nil, or_false, not_or] at hk
    simp only [List.mem_cons, List.not_mem_nil, or_false] at hkv
    rcases hkv with rfl | rfl | rfl | rfl | rfl | rfl | rfl | rfl | rfl | rfl <;>
      (intro hcontra; simp_all)

/-- The payload produced by the C1 witness request. -/
def aC1 : AliasKernelPayload :=
  { kernel_id := "a-b-c-d-e", kernel_connection_info := connDefault fSample }

/-- C1 witness: the amended claim at the concrete request
`name=python, env={"KERNEL_ID": "a-b-c-d-e"}`. -/
theorem c1_env_filtering_witness :
    dGetOpt (crEnvPairs (aliasDump aC1)) "KERNEL_SPEC_NAME" =
      some (kernelSpecNameJ .python) :=
  (c1_env_filtering fSample .python [("KERNEL_ID", .str "a-b-c-d-e")] aC1
    (by decide) rfl).2.1

/-! ## Claim C2. -/

/-- C2: the Kubernetes 403 classification in `acreate`.  The claim (and
the test suite) expect a 403 whose body contains `exceeded quota` to
raise `KernelResourceQuotaExceededError` (mapped to HTTP 403 by the POST
handler), but the client never inspects the body and raises plain
`KernelCreationError`, which the handler maps to HTTP 500.  The handler
itself does map `KernelResourceQuotaExceededError` to 403, so the
divergence sits in the client. -/
theorem c2_quota_collapsed_to_creation_error :
    acreateClassifyApiErr 403 "exceeded quota: limited: cpu=2" = .kernelCreation ∧
    postErrStatus .kernelCreation = some 500 ∧
    postErrStatus .kernelResourceQuotaExceeded = some 403 ∧
    (KErr.kernelCreation == KErr.kernelResourceQuotaExceeded) = false :=
  ⟨rfl, rfl, rfl, rfl⟩

/-! ## Claim C3. -/

theorem sKernelName_ok_of_obj (d : PyDict) (md : List (String × JValue))
    (hmd : dGetOpt d "metadata" = some (.obj md)) :
    ∃ d1, sKernelName d = .ok d1 := by
  unfold sKernelName
  rw [hmd]
  cases hnm : dGetOpt md "name" with
  | none =>
    refine ⟨d, ?_⟩
    simp [pyContains, any_key_eq_isSome, hnm]
  | some v =>
    refine ⟨dSet d "kernel_name" v, ?_⟩
    simp [pyContains, any_key_eq_isSome, hnm, pyGet]

theorem sKernelNamespace_ok_of_obj (d : PyDict) (md : List (String × JValue))
    (hmd : dGetOpt d "metadata" = some (.obj md)) :
    ∃ d1, sKernelNamespace d = .ok d1 := by
  unfold sKernelNamespace
  rw [hmd]
  cases hnm : dGetOpt md "namespace" with
  | none =>
    refine ⟨d, ?_⟩
    simp [pyContains, any_key_eq_isSome, hnm]
  | some v =>
    refine ⟨dSet d "kernel_namespace" v, ?_⟩
    simp [pyContains, any_key_eq_isSome, hnm, pyGet]

theorem sReady_ok_of_wf (d : PyDict)
    (hst : ∀ v, dGetOpt d "status" = some v → ∃ kvs, v = JValue.obj kvs) :
    ∃ d3, sReady d = .ok d3 := by
  unfold sReady
  cases hs : dGetOpt d "status" with
  | none => exact ⟨d, rfl⟩
  | some sv =>
    obtain ⟨kvs, rfl⟩ := hst sv hs
    cases hp : dGetOpt kvs "phase" with
    | none =>
      refine ⟨d, ?_⟩
      simp [pyContains, any_key_eq_isSome, hp]
    | some v =>
      by_cases hv : (v == JValue.str "Running") = true
      · refine ⟨dSet d "ready" (.bool true), ?_⟩
        simp [pyContains, any_key_eq_isSome, hp, pyGet, hv]
      · refine ⟨d, ?_⟩
        simp [pyContains, any_key_eq_isSome, hp, pyGet, hv]

/-- C3 (amended): for every well-formed CR document whose metadata labels
lack the `<group>/kernel-id` key, the inbound mapping raises a plain
Python `KeyError` — there is no `SchemaMappingError` anywhere in the
error taxonomy of excs.py — and no `KernelModel` is produced. -/
theorem c3_missing_label_raises_keyerror (f : FreshIds) (d : PyDict)
    (md ls : List (String × JValue))
    (hwf : CRTopWF d)
    (hmd : dGetOpt d "metadata" = some (.obj md))
    (hls : dGetOpt md "labels" = some (.obj ls))
    (hnolabel : dGetOpt ls KERNEL_ID_LABEL = none) :
    ∃ d3, kernelModelValidate f d = .error (.keyError KERNEL_ID_LABEL, d3) := by
  obtain ⟨d1, h1⟩ := sKernelName_ok_of_obj d md hmd
  have hmd1 : dGetOpt d1 "metadata" = some (.obj md) := by
    have e := sKernelName_frame d "metadata" (by decide)
    rw [h1] at e
    simpa [stepDict, hmd] using e
  obtain ⟨d2, h2⟩ := sKernelNamespace_ok_of_obj d1 md hmd1
  have hmd2 : dGetOpt d2 "metadata" = some (.obj md) := by
    have e := sKernelNamespace_frame d1 "metadata" (by decide)
    rw [h2] at e
    simpa [stepDict, hmd1] using e
  have hstat2 : dGetOpt d2 "status" = dGetOpt d "status" := by
    have e1 := sKernelName_frame d "status" (by decide)
    rw [h1] at e1
    have e2 := sKernelNamespace_frame d1 "status" (by decide)
    rw [h2] at e2
    simp only [stepDict] at e1 e2
    exact e2.trans e1
  obtain ⟨d3, h3⟩ := sReady_ok_of_wf d2 (fun v hv => hwf.2.1 v (hstat2 ▸ hv))
  have hmd3 : dGetOpt d3 "metadata" = some (.obj md) := by
    have e := sReady_frame d2 "metadata" (by decide)
    rw [h3] at e
    simpa [stepDict, hmd2] using e
  have hkid : sKernelId d3 = .error (.keyError KERNEL_ID_LABEL, d3) := by
    unfold sKernelId
    simp [dGet, hmd3, pyGet, hls, hnolabel, bind, Except.bind]
  refine ⟨d3, ?_⟩
  unfold kernelModelValidate mvalidateSteps mvalidateTail
  rw [h1]
  simp only [stepBind]
  rw [h2]
  simp only [stepBind]
  rw [h3]
  simp only [stepBind]
  rw [hkid]

/-- C3 counterexample: on the concrete labelless document the mapping
raises `KeyError("jupyter.org/kernel-id")` — an unclassified exception,
not a dedicated mapping-error kind. -/
theorem c3_keyerror_counterexample :
    stepErrOf (kernelModelValidate fSample crDocNoLabel) =
      some (.keyError KERNEL_ID_LABEL) := rfl

/-- C3 witness: the amended claim at the concrete labelless document. -/
theorem c3_missing_label_witness :
    ∃ d3, kernelModelValidate fSample crDocNoLabel =
      .error (.keyError KERNEL_ID_LABEL, d3) :=
  c3_missing_label_raises_keyerror fSample crDocNoLabel
    [("labels", .obj []), ("name", .str "python-test-id"),
     ("namespace", .str "default"),
     ("creationTimestamp", .str "2024-01-01T00:00:00Z")] []
    (crTopWF_of_b _ rfl) rfl rfl rfl

/-! ## Claim C4. -/

/-- C4: deleting an id with no matching CR succeeds silently with zero
delete-endpoint invocations (the `KernelNotFoundError` from the lookup is
a `KernelRetrieveError` subclass and is swallowed); consequently two
consecutive `DELETE /api/kernels/{id}` for the same id both return 200,
the first issuing one delete call, the second zero. -/
theorem c4_idempotent_delete :
    (∀ (f : FreshIds) (world : List PyDict) (kid : String),
       (∀ doc ∈ world, docLabelKernelId doc ≠ some kid) →
       adeleteByKernelId f world kid = (.ok (), world, 0)) ∧
    handlerDeleteById fSample [crDocRunning] "test-id" = (200, [], 1) ∧
    handlerDeleteById fSample [] "test-id" = (200, [], 0) := by
  refine ⟨?_, rfl, rfl⟩
  intro f world kid hno
  have hlist : listById world kid = [] := by
    unfold listById
    have hfil : world.filter (fun doc => decide (docLabelKernelId doc = some kid)) = [] := by
      rw [List.filter_eq_nil_iff]
      intro doc hdoc
      simpa using hno doc hdoc
    rw [hfil]
    rfl
  unfold adeleteByKernelId agetKernelById
  rw [hlist]
  rfl

/-- C4 witness: a delete for an id absent from an empty store. -/
theorem c4_idempotent_delete_witness :
    adeleteByKernelId fSample [] "nope-a-b-c-d" = (.ok (), [], 0) :=
  c4_idempotent_delete.1 fSample [] "nope-a-b-c-d"
    (fun doc hdoc => absurd hdoc (List.not_mem_nil doc))

/-! ## Claim C5. -/

/-- C5: the readiness poller.  Polls are indexed by elapsed seconds (the
loop sleeps one second per iteration, so poll `n` happens at second `n`).
(i) It returns `true` as soon as a poll reports ready; (ii) with the
kernel never ready it returns `false` — rather than raising — once the
elapsed time strictly exceeds the timeout; (iii) an error from the lookup
is re-raised as a fresh `KernelRetrieveError`; (iv) the loop reads polls
only at seconds `0 .. timeout+1`, i.e. at most `timeout+2` polls at the
fixed one-second cadence. -/
theorem c5_readiness_poller (get get2 : Nat → Except KErr Bool) (t n : Nat) (e : KErr) :
    ((∀ m, m < n → get m = .ok false ∧ ¬ t < m) → get n = .ok true →
       waitForKernelReady get t 0 = .ok true) ∧
    ((∀ m, m ≤ t + 1 → get m = .ok false) → waitForKernelReady get t 0 = .ok false) ∧
    ((∀ m, m < n → get m = .ok false ∧ ¬ t < m) → get n = .error e →
       waitForKernelReady get t 0 = .error .kernelRetrieve) ∧
    ((∀ m, m ≤ t + 1 → get m = get2 m) →
       waitForKernelReady get t 0 = waitForKernelReady get2 t 0) := by
  refine ⟨?_, ?_, ?_, ?_⟩
  · intro hpre hn
    exact wait_reaches_true get t n 0 (Nat.zero_le n) (fun m _ hm => hpre m hm) hn
  · intro hall
    exact wait_times_out get t 0 (by omega) hall
  · intro hpre hn
    exact wait_reraises get t n e 0 (Nat.zero_le n) (fun m _ hm => hpre m hm) hn
  · intro hagree
    exact wait_local get get2 t 0 (by omega) (fun m _ hm => hagree m hm)

/-- C5 witness: a kernel ready at the first poll. -/
theorem c5_readiness_poller_witness :
    waitForKernelReady (fun _ => Except.ok true) 5 0 = .ok true :=
  (c5_readiness_poller (fun _ => Except.ok true) (fun _ => Except.ok true) 5 0
    .kernelRetrieve).1 (fun m hm => absurd hm (Nat.not_lt_zero m)) rfl

/-! ## Claim C6. -/

/-- C6: for every well-formed CR document successfully mapped to a view,
`ready` is `true` iff `status.phase` equals `"Running"`; in particular a
CR without a status yields `ready = false`. -/
theorem c6_ready_iff_running (f : FreshIds) (d : PyDict) (m : KernelModel)
    (hwf : CRTopWF d) (h : kernelModelOf f d = .ok m) :
    (m.ready = true ↔ statusPhase d = some (.str "Running")) :=
  kernelModel_ready_iff f d m hwf h

/-- The view of the running sample document. -/
def mRunning : KernelModel :=
  { kernel_id := "test-id",
    kernel_connection_info := { ip := "10.0.0.1", kernel_id := "test-id", key := "test-key" },
    kernel_name := "python-test-id",
    kernel_last_activity_time := some "2024-01-01T00:00:00Z",
    ready := true }

/-- C6 witness: the running sample document. -/
theorem c6_ready_iff_running_witness :
    (mRunning.ready = true ↔ statusPhase crDocRunning = some (.str "Running")) :=
  c6_ready_iff_running fSample crDocRunning mRunning (crTopWF_of_b _ rfl) rfl

/-! ## Claim C7. -/

set_option maxHeartbeats 1000000 in
/-- C7: building the CR document from a `KernelPayload` and parsing it
back through the inbound mapping succeeds for every payload and returns a
view whose payload-inherited fields (id, namespace, image, idle timeout,
working dir, volumes, volume mounts, connection info, spec name) equal
the input; the server-set fields come back as the CR name, no activity
time and `ready = false`. -/
theorem c7_outbound_inbound_roundtrip (f : FreshIds) (p : KernelPayload) :
    kernelModelOf f (buildKernelDictPlain p) =
      .ok { toKernelPayload := p,
            kernel_name := p.kernel_spec_name.val ++ "-" ++ p.kernel_id,
            kernel_last_activity_time := none,
            ready := false } := by
  obtain ⟨kid, spec, wdir, ns, vols, mounts, idle, conn, img⟩ := p
  obtain ⟨ip, sp, iop, stp, cp, hp, ckid, ckey, tr, ss, cn⟩ := conn
  cases spec
  simp [kernelModelOf, kernelModelValidate, mvalidateSteps, mvalidateTail, buildKernelDictPlain,
        buildKernelDict, payloadDump, crEnvArr, crEnvPairs, connInfoDump,
        sKernelName, sKernelNamespace, sReady, sKernelId, sConnInfo, sEnvs, sVolumes, sMounts,
        sImage, sIdle, sWorkingDir, sLastActivity, stepBind, specContainer0,
        pyContains, pyGet, pyGetDefault, pyIdx, dGet, dGetOpt, dSet,
        kernelModelFields, pyStrField, specNameValidate, volumesField_map_obj, intCoerce,
        connInfoValidate, pyIntField, boolField, optStrField,
        bind, Except.bind, pure, Except.pure, KERNEL_ID_LABEL, KERNEL_GROUP,
        KernelSpecName.val, kernelSpecNameJ]

/-! ## Claim C8. -/

/-- C8: every view the created/list/get endpoints serialise renders to an
object with exactly the fields `id, name, last_activity, execution_state,
connections`, where `execution_state` is `"idle"` iff the view is ready
(`"starting"` otherwise) and `connections` is always `0`. -/
theorem c8_response_shape (m : KernelModel) (r : PyDict)
    (h : kernelResponseOf m = .ok r) :
    r.map Prod.fst = ["id", "name", "last_activity", "execution_state", "connections"] ∧
    dGetOpt r "execution_state" = some (.str (if m.ready then "idle" else "starting")) ∧
    dGetOpt r "connections" = some (.int 0) := by
  unfold kernelResponseOf at h
  cases hl : m.kernel_last_activity_time with
  | none =>
    rw [hl] at h
    exact (Except.noConfusion h)
  | some t =>
    rw [hl] at h
    injection h with h
    subst h
    exact ⟨rfl, rfl, rfl⟩

/-- C8 witness: the running sample view. -/
theorem c8_response_shape_witness :
    ([("id", JValue.str "test-id"), ("name", .str "python-test-id"),
      ("last_activity", .str "2024-01-01T00:00:00Z"),
      ("execution_state", .str (if mRunning.ready then "idle" else "starting")),
      ("connections", .int 0)] : PyDict).map Prod.fst =
      ["id", "name", "last_activity", "execution_state", "connections"] :=
  (c8_response_shape mRunning
    [("id", .str "test-id"), ("name", .str "python-test-id"),
     ("last_activity", .str "2024-01-01T00:00:00Z"),
     ("execution_state", .str (if mRunning.ready then "idle" else "starting")),
     ("connections", .int 0)] rfl).1

/-! ## Claim C9. -/

/-- C9: a kernel whose CR exists but whose phase is not `"Running"` gets
HTTP 404 from `GET /api/kernels/{id}` — the manager returns nothing for
an unready kernel and the handler maps that to 404 — the same status as
an id with no CR at all. -/
theorem c9_unready_get_404 (f : FreshIds) (doc : PyDict) (kid : String) (m : KernelModel)
    (hlabel : docLabelKernelId doc = some kid)
    (hwf : CRTopWF doc)
    (hmap : kernelModelOf f doc = .ok m)
    (hphase : statusPhase doc ≠ some (.str "Running")) :
    handlerGetStatus f [doc] kid = 404 ∧ handlerGetStatus f [] kid = 404 := by
  have hready : m.ready = false := by
    have hiff := kernelModel_ready_iff f doc m hwf hmap
    cases hr : m.ready
    · rfl
    · exact absurd (hiff.mp hr) hphase
  constructor
  · simp [handlerGetStatus, managerAgetKernel, agetKernelById, listById,
          List.filter, hlabel, hmap, hready]
  · simp [handlerGetStatus, managerAgetKernel, agetKernelById, listById]

/-- The view of the pending sample document. -/
def mPending : KernelModel :=
  { kernel_id := "test-id",
    kernel_connection_info := { kernel_id := "test-id", key := "test-key" },
    kernel_name := "python-test-id",
    kernel_last_activity_time := some "2024-01-01T00:00:00Z",
    ready := false }

/-- C9 witness: the pending sample document. -/
theorem c9_unready_get_404_witness :
    handlerGetStatus fSample [crDocPending] "test-id" = 404 ∧
    handlerGetStatus fSample [] "test-id" = 404 :=
  c9_unready_get_404 fSample crDocPending "test-id" mPending rfl
    (crTopWF_of_b _ rfl) rfl
    (fun h => by simpa using JValue.str.inj (Option.some.inj h))

/-! ## Claim C10. -/

/-- C10: the inbound mapping mutates the caller's dict in place and only
at the twelve listed keys — every other key keeps its value, whether the
mapping completes or raises part-way.  On the running sample document all
twelve keys are present afterwards; on the labelless document the early
keys (`kernel_name`) have already been written when the `KeyError`
aborts, while later keys (`kernel_connection_info`) have not: the dict is
left partially mutated. -/
theorem c10_inplace_mutation (f : FreshIds) (d : PyDict) :
    (∀ k, k ∉ writeKeys → dGetOpt (resultDict (kernelModelValidate f d)) k = dGetOpt d k) ∧
    writeKeys.all (fun k => dHas (resultDict (kernelModelValidate fSample crDocRunning)) k) = true ∧
    dHas crDocNoLabel "kernel_name" = false ∧
    dHas (resultDict (kernelModelValidate fSample crDocNoLabel)) "kernel_name" = true ∧
    dHas (resultDict (kernelModelValidate fSample crDocNoLabel)) "kernel_connection_info" = false := by
  refine ⟨?_, rfl, rfl, rfl, rfl⟩
  intro k hk
  have e := mvalidateSteps_frame f d k hk
  unfold kernelModelValidate resultDict
  cases hms : mvalidateSteps f d with
  | error ep =>
    rw [hms] at e
    simpa [stepDict] using e
  | ok d2 =>
    rw [hms] at e
    simp only [stepDict] at e
    cases hmf : kernelModelFields f d2 with
    | error ee => simpa [hmf] using e
    | ok m => simpa [hmf] using e

/-- C10 witness: an untouched key of the running sample document. -/
theorem c10_inplace_mutation_witness :
    dGetOpt (resultDict (kernelModelValidate fSample crDocRunning)) "apiVersion" =
      dGetOpt crDocRunning "apiVersion" :=
  (c10_inplace_mutation fSample crDocRunning).1 "apiVersion" (by decide)
